import Mathlib

/-!
Verification development for the Challenge-Hermes-Reply repository
(integration layer: src/integration/data_ingestion_service.py and
src/integration/etl_pipeline.py).

The Python source is shallowly embedded in Lean:
  * pandas/Oracle floating-point values are modelled as exact rationals
    (ℚ); threshold comparisons such as len(df) * 0.1 are modelled with
    exact rational arithmetic (the sub-ulp rounding of binary floats is
    not modelled; no property proved here sits at such a boundary);
  * numpy sqrt and datetime parsing are abstracted as fixed computable
    functions (ratSqrt, parseTimestampString); the properties proved
    about them use only that they are deterministic functions;
  * in-place mutation of Python objects (queues, counters, dataframes)
    is modelled by explicit state passing: a method that mutates self
    becomes a function returning the updated state;
  * wall-clock values (datetime.now) are passed in as explicit
    parameters; fields that store a wall-clock instant are modelled as
    booleans recording whether they were set, when no claim reads the
    stored instant.
-/

namespace Hermes

/-- Deterministic stand-in for numpy sqrt on rationals.  The exact IEEE
value is not modelled; every property proved about derived magnitudes
uses only that this is a fixed total function of its argument. -/
def ratSqrt (q : ℚ) : ℚ :=
  if q ≤ 0 then 0 else (Int.sqrt q.num : ℚ) / (Nat.sqrt q.den : ℚ)

/-- Deterministic stand-in for datetime parsing
(datetime.fromisoformat / pandas to_datetime on a string).  Encodes the
string as an integer; every property proved uses only determinism. -/
def parseTimestampString (s : String) : ℤ :=
  s.toList.foldl (fun a c => a * 256 + (c.toNat : ℤ)) 0

/-- numpy clip of a scalar: np.minimum(hi, np.maximum(lo, x)). -/
def clampQ (lo hi x : ℚ) : ℚ := min hi (max lo x)

/-- Boolean comparison used when sorting rational values
(pandas quantile sorts the column values ascending). -/
def ratLe (a b : ℚ) : Bool := decide (a ≤ b)

/-- pandas Series.quantile with the default linear interpolation,
evaluated on an already sorted list of the non-null values:
with n values, h = q * (n - 1), i = floor h, the result is
s[i] + (h - i) * (s[i+1] - s[i]) (the second term vanishing when h is
integral or i+1 is out of range). -/
def quantileSorted (s : List ℚ) (q : ℚ) : ℚ :=
  let h : ℚ := q * ((s.length : ℚ) - 1)
  let i : ℕ := (Int.floor h).toNat
  let a : ℚ := s.getD i 0
  let b : ℚ := s.getD (i + 1) a
  a + (h - (i : ℚ)) * (b - a)

/-- pandas Series.quantile on an unsorted list of non-null values. -/
def quantileOf (vals : List ℚ) (q : ℚ) : ℚ :=
  quantileSorted (vals.mergeSort ratLe) q

/-!
## Data ingestion service (src/integration/data_ingestion_service.py)
-/

/-- SYSTEM_CONFIG['buffer_size'] (line 64): capacity of the bounded
ingestion queue. -/
def SYSTEM_CONFIG_buffer_size : ℕ := 1000

/-- SYSTEM_CONFIG['batch_insert_size'] (line 65). -/
def SYSTEM_CONFIG_batch_insert_size : ℕ := 50

/-- SYSTEM_CONFIG['max_retries'] (line 68).  Note: this configuration
entry is never read anywhere in the source. -/
def SYSTEM_CONFIG_max_retries : ℕ := 3

/-- The timestamp field of an inbound payload: either an ISO-8601
string or epoch milliseconds (process_sensor_data lines 243-246). -/
inductive TsInput where
  | isoStr (s : String)
  | epochMs (n : ℤ)
deriving DecidableEq, Repr

/-- Conversion of the inbound timestamp to the canonical timestamp
(seconds as an exact rational): datetime.fromisoformat for strings,
division by 1000 for epoch milliseconds. -/
def tsInputToTimestamp : TsInput → ℚ
  | .isoStr s => (parseTimestampString s : ℚ)
  | .epochMs n => (n : ℚ) / 1000

/-- dataclass SensorReading (lines 75-95). -/
structure SensorReading where
  device_id : String
  timestamp : ℚ
  location : String
  equipment_type : String
  sensors : List (String × ℚ)
  fault_detected : Bool
  source : String := "MQTT"
deriving DecidableEq, Repr

/-- dataclass DatabaseStats (lines 97-104).  last_insert stores a
wall-clock instant in the source; it is modelled as a boolean that
records whether it was ever assigned. -/
structure DatabaseStats where
  total_records : ℕ := 0
  records_today : ℕ := 0
  last_insert_set : Bool := false
  failed_inserts : ℕ := 0
  active_devices : ℕ := 0
deriving DecidableEq, Repr

/-- The parsed key-value content of a sensor-data payload.  A JSON key
that is absent is modelled as none.  (A key present with a JSON null
value is also modelled as none; no claim distinguishes the two.) -/
structure PayloadData where
  device_id : Option String
  timestamp : Option TsInput
  sensors : Option (List (String × ℚ))
  location : Option String
  equipment_type : Option String
  fault_detected : Option Bool
deriving DecidableEq, Repr

/-- A raw inbound payload: either text that fails json.loads (the
JSONDecodeError branch, line 265) or parsed key-value data. -/
inductive Payload where
  | badJson
  | parsed (d : PayloadData)
deriving DecidableEq, Repr

/-- The mutable state of DataIngestionService touched by the decode and
enqueue path: the bounded queue (self.data_queue, capacity
SYSTEM_CONFIG buffer_size, line 125) and the statistics counters
(self.stats, line 126). -/
structure IngestState where
  data_queue : List SensorReading
  stats : DatabaseStats
deriving DecidableEq, Repr

/-- DataIngestionService.process_sensor_data (lines 230-268).
Requires the keys device_id, timestamp and sensors to be present
(line 237: required_fields membership test only — the value under
sensors is not checked for non-emptiness); missing optional fields
receive the defaults Unknown / Unknown / False (lines 252-255).
If the queue is full the reading is dropped with only a log warning:
no counter is touched (lines 258-263). -/
def process_sensor_data (st : IngestState) (p : Payload) : IngestState :=
  match p with
  | .badJson => st
  | .parsed d =>
    match d.device_id, d.timestamp, d.sensors with
    | some dev, some ts, some ss =>
      let reading : SensorReading :=
        { device_id := dev
          timestamp := tsInputToTimestamp ts
          location := d.location.getD "Unknown"
          equipment_type := d.equipment_type.getD "Unknown"
          sensors := ss
          fault_detected := d.fault_detected.getD false }
      if st.data_queue.length < SYSTEM_CONFIG_buffer_size then
        { st with data_queue := st.data_queue ++ [reading] }
      else
        st
    | _, _, _ => st

/-- A sequence of inbound sensor-data messages processed in order. -/
def process_all (st : IngestState) (ps : List Payload) : IngestState :=
  ps.foldl process_sensor_data st

/-- DataIngestionService.insert_sensor_data (lines 288-344).  The store
is modelled as an oracle giving the outcome of successive persistence
attempts; the source performs exactly one stored-procedure call
(cursor.callproc, line 316) per invocation, with no retry loop, so
exactly the outcome of attempt 0 is consumed.  On success the
transaction is committed and total_records incremented (lines 333-335);
on any exception the transaction is rolled back and failed_inserts
incremented (lines 340-344).  The returned triple is (updated stats,
success flag, number of store attempts performed).  The dimension-row
upserts (get_or_create_equipment / get_or_create_sensor) and the
stored-procedure arguments are effects on the external store and are
not modelled; no claim reads them. -/
def insert_sensor_data (store : ℕ → Bool) (st : DatabaseStats) :
    DatabaseStats × Bool × ℕ :=
  if store 0 then
    ({ st with total_records := st.total_records + 1, last_insert_set := true },
     true, 1)
  else
    ({ st with failed_inserts := st.failed_inserts + 1 }, false, 1)

/-- One iteration of DataIngestionService.data_processing_loop
(lines 396-430): drain up to batch_insert_size readings from the queue,
insert each one, count the successes.  The per-reading store outcome is
given by the oracle.  Returns (remaining queue, updated stats,
successful inserts).  Failed readings are not re-queued: the returned
queue is exactly the original queue minus the drained batch. -/
def data_processing_iteration (store : SensorReading → Bool)
    (q : List SensorReading) (st : DatabaseStats) :
    List SensorReading × DatabaseStats × ℕ :=
  let batch := q.take SYSTEM_CONFIG_batch_insert_size
  let rest := q.drop SYSTEM_CONFIG_batch_insert_size
  let step := fun (acc : DatabaseStats × ℕ) (r : SensorReading) =>
    let out := insert_sensor_data (fun _ => store r) acc.1
    (out.1, acc.2 + (if out.2.1 then 1 else 0))
  let final := batch.foldl step (st, 0)
  (rest, final.1, final.2)

/-!
## ETL pipeline (src/integration/etl_pipeline.py)
-/

/-- A cell of the DATAHORA_MEDICAO column: either the raw value as it
comes out of the extraction query (modelled as a string) or a value
already converted by pandas to_datetime (modelled by its canonical
integer timestamp). -/
inductive TimeVal where
  | raw (s : String)
  | dt (t : ℤ)
deriving DecidableEq, Repr

/-- pandas to_datetime on one cell: parses a raw cell, leaves an
already-converted cell unchanged. -/
def toDatetimeVal : TimeVal → TimeVal
  | .raw s => .dt (parseTimestampString s)
  | .dt t => .dt t

/-- The timestamp carried by a cell (used for comparisons and
sorting). -/
def timeKey : TimeVal → ℤ
  | .raw s => parseTimestampString s
  | .dt t => t

/-- The TEMP_STATUS labels produced by pd.cut (lines 374-379). -/
inductive TempStatus where
  | NORMAL
  | WARNING
  | CRITICAL
deriving DecidableEq, Repr

/-- One row of the window extracted by extract_sensor_data
(lines 184-209): the T_MEDICAO columns joined with T_EQUIPAMENTO.
Measurement values are nullable (Option); the key, timestamp and
dimension columns are non-null in the store, so total null counts range
over the ten measurement columns only.  The two derived columns
(VIBRACAO_MAGNITUDE, TEMP_STATUS) are absent (none) on an extracted
row and are populated by the transform stage. -/
structure Row where
  id_medicao : ℤ
  id_maquina : String
  id_sensor : String
  datahora : TimeVal
  vl_temperatura : Option ℚ
  vl_pressao : Option ℚ
  vl_vibracao : Option ℚ
  vl_humidade : Option ℚ
  vl_vibr_x : Option ℚ
  vl_vibr_y : Option ℚ
  vl_vibr_z : Option ℚ
  vl_gyro_x : Option ℚ
  vl_gyro_y : Option ℚ
  vl_gyro_z : Option ℚ
  flag_falha : Bool
  fonte_dados : String
  tipo_maquina : String
  localizacao : String
  status_operacional : String
  vibracao_magnitude : Option ℚ := none
  temp_status : Option TempStatus := none
deriving DecidableEq, Repr

/-- The number of null measurement cells in one row (the nullable
columns of the schema; the key, timestamp and dimension columns are
non-null). -/
def rowNullCells (r : Row) : ℕ :=
  (if r.vl_temperatura.isSome then 0 else 1) +
  (if r.vl_pressao.isSome then 0 else 1) +
  (if r.vl_vibracao.isSome then 0 else 1) +
  (if r.vl_humidade.isSome then 0 else 1) +
  (if r.vl_vibr_x.isSome then 0 else 1) +
  (if r.vl_vibr_y.isSome then 0 else 1) +
  (if r.vl_vibr_z.isSome then 0 else 1) +
  (if r.vl_gyro_x.isSome then 0 else 1) +
  (if r.vl_gyro_y.isSome then 0 else 1) +
  (if r.vl_gyro_z.isSome then 0 else 1)

/-- df.isnull().sum().sum() (line 253): total null cells over the
window. -/
def nullCount (df : List Row) : ℕ :=
  (df.map rowNullCells).sum

/-- Rows whose VL_TEMPERATURA lies outside [-50, 200] (lines 263-266).
A null cell compares false on both sides, as in pandas. -/
def tempOutliers (df : List Row) : ℕ :=
  (df.filter (fun r =>
    match r.vl_temperatura with
    | some t => decide (t < -50) || decide (200 < t)
    | none => false)).length

/-- df.ID_MEDICAO.duplicated().sum() (line 278): rows whose key already
appeared at an earlier position (keep-first semantics). -/
def dupCountAux (seen : List ℤ) : List Row → ℕ
  | [] => 0
  | r :: rest =>
    (if r.id_medicao ∈ seen then 1 else 0) + dupCountAux (r.id_medicao :: seen) rest

/-- Duplicate-key count for the window. -/
def dupCount (df : List Row) : ℕ := dupCountAux [] df

/-- Rows with DATAHORA_MEDICAO strictly after now (line 290), counted
after the to_datetime conversion of line 289. -/
def futureCount (df : List Row) (now : ℤ) : ℕ :=
  (df.filter (fun r => decide (now < timeKey r.datahora))).length

/-- dataclass DataQualityCheck (lines 94-101).  The timestamp field
(wall clock at check time) is the now parameter of the check run. -/
structure DataQualityCheck where
  check_name : String
  passed : Bool
  message : String
  timestamp : ℤ
  affected_records : ℕ := 0
deriving DecidableEq, Repr

/-- SmartMaintenanceETLPipeline.perform_data_quality_checks
(lines 246-318).  Returns the four check results together with the
window as the caller sees it afterwards: line 289 reassigns the
DATAHORA_MEDICAO column of the caller-owned dataframe (to_datetime),
so the function is not read-only on its input; this in-place mutation
is modelled by returning the updated window.  The null-ratio threshold
null_count < len(df) * 0.1 and all later thresholds are modelled with
exact rational arithmetic (10 * null_count < len df).  The columns
tested for presence on lines 263, 277 and 288 are always present in
the extracted schema, so the three conditional checks always run. -/
def perform_data_quality_checks (df : List Row) (now : ℤ) :
    List DataQualityCheck × List Row :=
  let nulls := nullCount df
  let c1 : DataQualityCheck :=
    { check_name := "NULL_VALUES"
      passed := decide (10 * nulls < df.length)
      message := "Encontrados " ++ toString nulls ++ " valores nulos"
      timestamp := now
      affected_records := nulls }
  let outliers := tempOutliers df
  let c2 : DataQualityCheck :=
    { check_name := "TEMPERATURE_RANGE"
      passed := decide (outliers = 0)
      message := "Temperatura fora do range: " ++ toString outliers ++ " registros"
      timestamp := now
      affected_records := outliers }
  let dups := dupCount df
  let c3 : DataQualityCheck :=
    { check_name := "DUPLICATES"
      passed := decide (dups = 0)
      message := "Registros duplicados: " ++ toString dups
      timestamp := now
      affected_records := dups }
  let dfConv := df.map (fun r => { r with datahora := toDatetimeVal r.datahora })
  let future := futureCount dfConv now
  let c4 : DataQualityCheck :=
    { check_name := "FUTURE_TIMESTAMPS"
      passed := decide (future = 0)
      message := "Timestamps futuros: " ++ toString future ++ " registros"
      timestamp := now
      affected_records := future }
  ([c1, c2, c3, c4], dfConv)

/-!
### Transform stage (clean_and_transform_data, lines 320-390)

The pandas implementation rewrites one column at a time; each column
rewrite reads only its own column, so the per-column loop of the source
is rendered as one row map per phase, with the column statistics
(median, quartiles) computed from the same frame the source computes
them from.  The guard `if isnull().sum() > 0` before fillna (line 334)
is a no-op optimisation (filling a frame without nulls changes
nothing) and is absorbed into the cell functions.
-/

/-- fillna with the column median (lines 336-337, for VL_TEMPERATURA,
VL_PRESSAO, VL_HUMIDADE).  vals is the list of non-null values of the
column; the median of an all-null column is NaN and filling with NaN
leaves the cell null, hence the empty guard. -/
def fillCellMedian (vals : List ℚ) (v : Option ℚ) : Option ℚ :=
  if vals.isEmpty then v else some (v.getD (quantileOf vals (1 / 2)))

/-- fillna(0) (line 339, for the remaining numeric columns). -/
def fillCellZero (v : Option ℚ) : Option ℚ :=
  some (v.getD 0)

/-- The clip bounds Q1 - 3 IQR and Q3 + 3 IQR computed from the
non-null values of a column (lines 344-350). -/
def iqrBounds (vals : List ℚ) : ℚ × ℚ :=
  let q1 := quantileOf vals (1 / 4)
  let q3 := quantileOf vals (3 / 4)
  (q1 - 3 * (q3 - q1), q3 + 3 * (q3 - q1))

/-- np.clip of one cell against the IQR bounds of its column
(line 358).  NaN cells stay NaN; if the column has no non-null value
the quantiles are NaN and clipping against NaN bounds leaves every
(null) cell null, hence the empty guard. -/
def clipCellOf (vals : List ℚ) (v : Option ℚ) : Option ℚ :=
  if vals.isEmpty then v
  else v.map (fun x => clampQ (iqrBounds vals).1 (iqrBounds vals).2 x)

/-- The non-null VL_TEMPERATURA values of a frame (what pandas reads
for median and quantile of that column). -/
def tempVals (df : List Row) : List ℚ :=
  df.filterMap (fun r => r.vl_temperatura)

/-- The non-null VL_PRESSAO values of a frame. -/
def presVals (df : List Row) : List ℚ :=
  df.filterMap (fun r => r.vl_pressao)

/-- The non-null VL_HUMIDADE values of a frame. -/
def humVals (df : List Row) : List ℚ :=
  df.filterMap (fun r => r.vl_humidade)

/-- The non-null VL_VIBRACAO values of a frame. -/
def vibrVals (df : List Row) : List ℚ :=
  df.filterMap (fun r => r.vl_vibracao)

/-- The per-row fillna of step 1, with the three column medians taken
from the frame being filled. -/
def fillRowWith (mt mp mh : List ℚ) (r : Row) : Row :=
  { r with
    vl_temperatura := fillCellMedian mt r.vl_temperatura
    vl_pressao := fillCellMedian mp r.vl_pressao
    vl_vibracao := fillCellZero r.vl_vibracao
    vl_humidade := fillCellMedian mh r.vl_humidade
    vl_vibr_x := fillCellZero r.vl_vibr_x
    vl_vibr_y := fillCellZero r.vl_vibr_y
    vl_vibr_z := fillCellZero r.vl_vibr_z
    vl_gyro_x := fillCellZero r.vl_gyro_x
    vl_gyro_y := fillCellZero r.vl_gyro_y
    vl_gyro_z := fillCellZero r.vl_gyro_z }

/-- Transform step 1 (lines 331-339): fillna over the numeric columns,
median for the physical measurements VL_TEMPERATURA, VL_PRESSAO,
VL_HUMIDADE, zero for the rest.  ID_MEDICAO is also numeric but
non-null in the schema, so its fillna is a no-op and is omitted. -/
def transformFill (df : List Row) : List Row :=
  df.map (fillRowWith (tempVals df) (presVals df) (humVals df))

/-- The per-row IQR clip of step 2, with the designated column value
lists taken from the frame being clipped. -/
def clipRowWith (vt vp vv : List ℚ) (r : Row) : Row :=
  { r with
    vl_temperatura := clipCellOf vt r.vl_temperatura
    vl_pressao := clipCellOf vp r.vl_pressao
    vl_vibracao := clipCellOf vv r.vl_vibracao }

/-- Transform step 2 (lines 341-358): IQR outlier clipping of
VL_TEMPERATURA, VL_PRESSAO, VL_VIBRACAO, with the quartiles computed
on the current (already filled) frame. -/
def transformClip (df : List Row) : List Row :=
  df.map (clipRowWith (tempVals df) (presVals df) (vibrVals df))

/-- to_datetime on one row. -/
def dtRowFun (r : Row) : Row :=
  { r with datahora := toDatetimeVal r.datahora }

/-- Transform step 3 (lines 360-362): pd.to_datetime on
DATAHORA_MEDICAO. -/
def transformDatetime (df : List Row) : List Row :=
  df.map dtRowFun

/-- VIBRACAO_MAGNITUDE = sqrt(x^2 + y^2 + z^2) of one row
(lines 366-371); NaN components propagate to NaN. -/
def magnitudeOf (x y z : Option ℚ) : Option ℚ :=
  match x, y, z with
  | some a, some b, some c => some (ratSqrt (a * a + b * b + c * c))
  | _, _, _ => none

/-- The magnitude derivation on one row. -/
def deriveRowFun (r : Row) : Row :=
  { r with vibracao_magnitude := magnitudeOf r.vl_vibr_x r.vl_vibr_y r.vl_vibr_z }

/-- Transform step 4a (lines 365-371): derive VIBRACAO_MAGNITUDE. -/
def transformDerive (df : List Row) : List Row :=
  df.map deriveRowFun

/-- pd.cut with bins (-inf, 85], (85, 95], (95, inf) (lines 375-379). -/
def tempStatusOf (t : ℚ) : TempStatus :=
  if t ≤ 85 then .NORMAL else if t ≤ 95 then .WARNING else .CRITICAL

/-- The status labelling on one row. -/
def statusRowFun (r : Row) : Row :=
  { r with temp_status := r.vl_temperatura.map tempStatusOf }

/-- Transform step 4b (lines 373-379): derive TEMP_STATUS; a NaN
temperature gets a NaN label, as with pd.cut. -/
def transformStatus (df : List Row) : List Row :=
  df.map statusRowFun

/-- Row comparison for the final sort by DATAHORA_MEDICAO. -/
def rowLe (r s : Row) : Bool := decide (timeKey r.datahora ≤ timeKey s.datahora)

/-- Transform step 5 (lines 381-383): sort by timestamp ascending.
Modelled as a stable merge sort; the source sort is equally a
deterministic function of its input. -/
def transformSort (df : List Row) : List Row :=
  df.mergeSort rowLe

/-- SmartMaintenanceETLPipeline.clean_and_transform_data
(lines 320-390).  The empty frame is returned unchanged (line 325). -/
def clean_and_transform_data (df : List Row) : List Row :=
  if df.isEmpty then df
  else
    transformSort (transformStatus (transformDerive
      (transformDatetime (transformClip (transformFill df)))))

/-!
### Aggregation stage (aggregate_data_for_reporting, lines 392-449)

pandas groupby sorts the group keys ascending.  The numeric summary
columns are modelled as exact rational means plus max, min and counts;
the .round(2) of the source (banker's rounding of the display values)
and the std column are omitted — no claim reads any aggregated numeric
value.  Line 419 also adds an hour column to the transformed frame in
place; no claim concerns that frame afterwards, so this effect is not
modelled.
-/

/-- Distinct values in first-appearance order. -/
def distinctKeys {α : Type} [DecidableEq α] (l : List α) : List α :=
  l.foldl (fun acc k => if k ∈ acc then acc else acc ++ [k]) []

/-- Mean of a list of non-null values (NaN as none when empty). -/
def meanOpt (l : List ℚ) : Option ℚ :=
  if l.isEmpty then none else some (l.sum / (l.length : ℚ))

/-- Max of a list of non-null values. -/
def maxOpt (l : List ℚ) : Option ℚ := l.max?

/-- Min of a list of non-null values. -/
def minOpt (l : List ℚ) : Option ℚ := l.min?

/-- One row of the per-equipment aggregation (lines 401-415). -/
structure EquipAgg where
  id_maquina : String
  temp_mean : Option ℚ
  temp_max : Option ℚ
  temp_min : Option ℚ
  pressao_mean : Option ℚ
  humidade_mean : Option ℚ
  vibracao_mean : Option ℚ
  fault_count : ℕ
  record_count : ℕ
  last_seen : Option ℤ
deriving DecidableEq, Repr

/-- One row of the per-hour aggregation (lines 417-431). -/
structure HourAgg where
  hour : ℤ
  temp_mean : Option ℚ
  pressao_mean : Option ℚ
  humidade_mean : Option ℚ
  vibracao_mean : Option ℚ
  fault_count : ℕ
  medicao_count : ℕ
deriving DecidableEq, Repr

/-- One row of the per-location-and-type aggregation (lines 433-442). -/
structure LocTypeAgg where
  localizacao : String
  tipo_maquina : String
  temp_mean : Option ℚ
  fault_count : ℕ
  device_distinct : ℕ
deriving DecidableEq, Repr

/-- The dictionary of aggregation views built per cycle. -/
structure Aggregations where
  equipment_summary : List EquipAgg
  hourly_trends : List HourAgg
  location_type_summary : List LocTypeAgg
deriving DecidableEq, Repr

/-- Group-key sort for strings (pandas groupby sorts keys). -/
def strLe (a b : String) : Bool := !(decide (b < a))

/-- Hour bucket of a timestamp: dt.floor on the hour, with Python
floor division semantics. -/
def hourBucket (t : ℤ) : ℤ := 3600 * (Int.fdiv t 3600)

/-- Per-equipment view (groupby ID_MAQUINA, lines 401-415). -/
def equipmentSummaryOf (df : List Row) : List EquipAgg :=
  ((distinctKeys (df.map (fun r => r.id_maquina))).mergeSort strLe).map (fun k =>
    let g := df.filter (fun r => r.id_maquina == k)
    { id_maquina := k
      temp_mean := meanOpt (g.filterMap (fun r => r.vl_temperatura))
      temp_max := maxOpt (g.filterMap (fun r => r.vl_temperatura))
      temp_min := minOpt (g.filterMap (fun r => r.vl_temperatura))
      pressao_mean := meanOpt (g.filterMap (fun r => r.vl_pressao))
      humidade_mean := meanOpt (g.filterMap (fun r => r.vl_humidade))
      vibracao_mean := meanOpt (g.filterMap (fun r => r.vl_vibracao))
      fault_count := (g.filter (fun r => r.flag_falha)).length
      record_count := g.length
      last_seen := (g.map (fun r => timeKey r.datahora)).max? })

/-- Integer comparison for hour-bucket keys. -/
def intLe (a b : ℤ) : Bool := decide (a ≤ b)

/-- Per-hour view (groupby hour bucket, lines 417-431). -/
def hourlyTrendsOf (df : List Row) : List HourAgg :=
  ((distinctKeys (df.map (fun r => hourBucket (timeKey r.datahora)))).mergeSort intLe).map
    (fun h =>
      let g := df.filter (fun r => hourBucket (timeKey r.datahora) == h)
      { hour := h
        temp_mean := meanOpt (g.filterMap (fun r => r.vl_temperatura))
        pressao_mean := meanOpt (g.filterMap (fun r => r.vl_pressao))
        humidade_mean := meanOpt (g.filterMap (fun r => r.vl_humidade))
        vibracao_mean := meanOpt (g.filterMap (fun r => r.vl_vibracao))
        fault_count := (g.filter (fun r => r.flag_falha)).length
        medicao_count := g.length })

/-- Pair comparison for location-and-type keys. -/
def pairLe (a b : String × String) : Bool :=
  if a.1 == b.1 then strLe a.2 b.2 else strLe a.1 b.1

/-- Per-location-and-type view (groupby LOCALIZACAO, TIPO_MAQUINA,
lines 433-442). -/
def locationTypeSummaryOf (df : List Row) : List LocTypeAgg :=
  ((distinctKeys (df.map (fun r => (r.localizacao, r.tipo_maquina)))).mergeSort pairLe).map
    (fun k =>
      let g := df.filter (fun r => r.localizacao == k.1 && r.tipo_maquina == k.2)
      { localizacao := k.1
        tipo_maquina := k.2
        temp_mean := meanOpt (g.filterMap (fun r => r.vl_temperatura))
        fault_count := (g.filter (fun r => r.flag_falha)).length
        device_distinct := (distinctKeys (g.map (fun r => r.id_maquina))).length })

/-- SmartMaintenanceETLPipeline.aggregate_data_for_reporting
(lines 392-449): an empty frame yields the empty dictionary
(line 397); otherwise the three views are built (the guarding columns
are always present in the schema). -/
def aggregate_data_for_reporting (df : List Row) : Option Aggregations :=
  if df.isEmpty then none
  else some
    { equipment_summary := equipmentSummaryOf df
      hourly_trends := hourlyTrendsOf df
      location_type_summary := locationTypeSummaryOf df }

/-!
### Cycle orchestration (run_etl_cycle, start, stop)
-/

/-- dataclass PipelineMetrics (lines 82-92).  last_run_time stores a
wall-clock instant; modelled as a set flag. -/
structure PipelineMetrics where
  records_processed : ℕ := 0
  records_failed : ℕ := 0
  ml_predictions : ℕ := 0
  alerts_generated : ℕ := 0
  last_run_set : Bool := false
  average_processing_time : ℚ := 0
  pipeline_status : String := "STOPPED"
  errors_count : ℕ := 0
deriving DecidableEq, Repr

/-- The outcome of one ETL cycle: the metrics afterwards, the boolean
return of run_etl_cycle, the quality-check results, and what the
stages produced (none when the stage did not run). -/
structure CycleResult where
  metrics : PipelineMetrics
  ok : Bool
  checks : List DataQualityCheck
  transformed : Option (List Row)
  aggregations : Option (Option Aggregations)
  exported : Bool
deriving DecidableEq, Repr

/-- Rolling average update of line 626-630. -/
def updateAverage (avg t : ℚ) : ℚ :=
  if 0 < avg then (avg + t) / 2 else t

/-- SmartMaintenanceETLPipeline.run_etl_cycle (lines 581-638), with
the extracted window, the wall clock and the measured cycle duration
as parameters.  An empty extraction returns True immediately
(lines 590-592).  A check is critical when it failed and its
affected-record count exceeds 20 percent of the window
(line 599, len(df) * 0.2 modelled exactly as df.length < 5 * affected);
any critical failure aborts the cycle: errors_count is incremented and
no transform, aggregation, ML or export runs (lines 600-603).
Otherwise the cycle transforms, aggregates, predicts (the metrics
effect of run_ml_predictions is ml_predictions += number of distinct
ID_MAQUINA values; the simulated scores themselves involve
np.random and are read by no claim), loads the aggregations when the
dictionary is non-empty, exports, and updates the metrics
(lines 605-633). -/
def run_etl_cycle (m : PipelineMetrics) (df : List Row) (now : ℤ) (cycleTime : ℚ) :
    CycleResult :=
  if df.isEmpty then
    { metrics := m, ok := true, checks := [], transformed := none,
      aggregations := none, exported := false }
  else
    let qc := perform_data_quality_checks df now
    let critical := qc.1.filter (fun c =>
      !c.passed && decide (df.length < 5 * c.affected_records))
    if !critical.isEmpty then
      { metrics := { m with errors_count := m.errors_count + 1 }, ok := false,
        checks := qc.1, transformed := none, aggregations := none,
        exported := false }
    else
      let dfClean := clean_and_transform_data qc.2
      let aggs := aggregate_data_for_reporting dfClean
      let m1 := { m with
        ml_predictions :=
          m.ml_predictions + (distinctKeys (dfClean.map (fun r : Row => r.id_maquina))).length }
      let m2 := { m1 with
        records_processed := m1.records_processed + df.length
        last_run_set := true
        average_processing_time := updateAverage m1.average_processing_time cycleTime }
      { metrics := m2, ok := true, checks := qc.1, transformed := some dfClean,
        aggregations := some aggs, exported := true }

/-- The pipeline-level mutable state touched by start and stop
(lines 798-846): the running flag, the metrics object, and the
background threads.  threads_started counts the loop threads ever
created and started; the source keeps only the references of the two
most recent ones, but started threads keep running regardless. -/
structure EtlPipelineState where
  is_running : Bool := false
  metrics : PipelineMetrics := {}
  threads_started : ℕ := 0
  start_time_set : Bool := false
deriving DecidableEq, Repr

/-- SmartMaintenanceETLPipeline.start (lines 798-825).  There is no
guard on the current state: every successful call records the start
time, connects, sets RUNNING, and creates and starts a fresh
processing thread and a fresh monitoring thread.  connect_ok is the
outcome of connect_database; on failure the method returns False
(lines 805-807). -/
def pipeline_start (connect_ok : Bool) (s : EtlPipelineState) :
    EtlPipelineState × Bool :=
  let s1 := { s with start_time_set := true }
  if connect_ok then
    ({ s1 with
        is_running := true
        metrics := { s1.metrics with pipeline_status := "RUNNING" }
        threads_started := s1.threads_started + 2 }, true)
  else
    (s1, false)

/-- SmartMaintenanceETLPipeline.stop (lines 827-846): clears the
running flag and sets the status to STOPPED (thread joins and executor
shutdown are external effects). -/
def pipeline_stop (s : EtlPipelineState) : EtlPipelineState :=
  { s with
      is_running := false
      metrics := { s.metrics with pipeline_status := "STOPPED" } }

/-!
## Concrete fixtures used by witnesses and counterexamples
-/

/-- A well-formed reading, as produced from a valid payload. -/
def sampleReading : SensorReading :=
  { device_id := "ESP32_HERMES_001"
    timestamp := 0
    location := "Unknown"
    equipment_type := "Unknown"
    sensors := [("temperature", 25)]
    fault_detected := false }

/-- A payload with all three required keys present. -/
def goodPayloadData : PayloadData :=
  { device_id := some "ESP32_HERMES_001"
    timestamp := some (.epochMs 0)
    sensors := some [("temperature", 25)]
    location := none
    equipment_type := none
    fault_detected := none }

/-- A payload whose sensors key is present but maps to an empty
sensor-channel map. -/
def emptyMapPayloadData : PayloadData :=
  { goodPayloadData with sensors := some [] }

/-- Ingestion state whose queue already holds buffer_size readings. -/
def stFull : IngestState :=
  { data_queue := List.replicate SYSTEM_CONFIG_buffer_size sampleReading
    stats := {} }

/-- A fully populated extracted row with benign values. -/
def rowBase : Row :=
  { id_medicao := 1
    id_maquina := "EQ1"
    id_sensor := "S1"
    datahora := .dt 0
    vl_temperatura := some 25
    vl_pressao := some 1000
    vl_vibracao := some 1
    vl_humidade := some 50
    vl_vibr_x := some 0
    vl_vibr_y := some 0
    vl_vibr_z := some 1
    vl_gyro_x := some 0
    vl_gyro_y := some 0
    vl_gyro_z := some 0
    flag_falha := false
    fonte_dados := "MQTT"
    tipo_maquina := "Pump"
    localizacao := "Factory_A"
    status_operacional := "OK" }

/-- A row whose temperature violates the physical range check. -/
def rowBad : Row := { rowBase with vl_temperatura := some 300 }

/-- A row whose timestamp column is still in its raw (unconverted)
form. -/
def rowRawTime : Row := { rowBase with datahora := .raw "T" }

/-- Metrics of a running pipeline. -/
def mRunning : PipelineMetrics := { pipeline_status := "RUNNING" }

/-!
## Claims
-/

/-- Helper: process_sensor_data never grows the queue beyond any bound
that already holds. -/
theorem process_sensor_data_length_le (st : IngestState) (p : Payload)
    (h : st.data_queue.length ≤ SYSTEM_CONFIG_buffer_size) :
    (process_sensor_data st p).data_queue.length ≤ SYSTEM_CONFIG_buffer_size := by
  unfold process_sensor_data
  cases p with
  | badJson => exact h
  | parsed d =>
    rcases hd : d.device_id with _ | dev <;>
      rcases ht : d.timestamp with _ | ts <;>
        rcases hs : d.sensors with _ | ss <;>
          simp only [hd, ht, hs]
    all_goals try exact h
    split
    · next hlt => simpa using hlt
    · exact h

/-- Helper: the bound is preserved by any sequence of payloads. -/
theorem process_all_length_le (ps : List Payload) (st : IngestState)
    (h : st.data_queue.length ≤ SYSTEM_CONFIG_buffer_size) :
    (process_all st ps).data_queue.length ≤ SYSTEM_CONFIG_buffer_size := by
  induction ps generalizing st with
  | nil => exact h
  | cons p ps ih =>
    exact ih (process_sensor_data st p) (process_sensor_data_length_le st p h)

/-- Helper: on a full queue, process_sensor_data is the identity. -/
theorem process_sensor_data_full (st : IngestState) (p : Payload)
    (hfull : st.data_queue.length = SYSTEM_CONFIG_buffer_size) :
    process_sensor_data st p = st := by
  unfold process_sensor_data
  cases p with
  | badJson => rfl
  | parsed d =>
    rcases hd : d.device_id with _ | dev <;>
      rcases ht : d.timestamp with _ | ts <;>
        rcases hs : d.sensors with _ | ss <;>
          simp only [hd, ht, hs]
    split
    · next hlt => omega
    · rfl

/-- Claim C1 (counterexample): with the queue already holding
buffer_size readings, a further valid sensor payload is dropped
(the whole state, queue and counters alike, is unchanged), and the
failure counter is NOT incremented by 1 as the claim requires: the
overflow branch only logs a warning. -/
theorem c1_counterexample :
    stFull.data_queue.length = SYSTEM_CONFIG_buffer_size ∧
    process_sensor_data stFull (.parsed goodPayloadData) = stFull ∧
    (process_sensor_data stFull (.parsed goodPayloadData)).stats.failed_inserts ≠
      stFull.stats.failed_inserts + 1 := by
  have hlen : stFull.data_queue.length = SYSTEM_CONFIG_buffer_size := by
    simp [stFull]
  have hid : process_sensor_data stFull (.parsed goodPayloadData) = stFull :=
    process_sensor_data_full stFull _ hlen
  refine ⟨hlen, hid, ?_⟩
  rw [hid]
  simp [stFull]

/-- Claim C1 (amended): enqueuing onto a full queue drops the reading
and leaves the entire ingestion state, including every counter,
unchanged (only a warning is logged; no records_failed counter is
incremented anywhere on this path), and after any sequence of inbound
payloads the queue length never exceeds buffer_size. -/
theorem c1_amended (st : IngestState) (ps : List Payload) (p : Payload)
    (h : st.data_queue.length ≤ SYSTEM_CONFIG_buffer_size) :
    (process_all st ps).data_queue.length ≤ SYSTEM_CONFIG_buffer_size ∧
    (st.data_queue.length = SYSTEM_CONFIG_buffer_size →
      process_sensor_data st p = st) := by
  exact ⟨process_all_length_le ps st h, fun hfull =>
    process_sensor_data_full st p hfull⟩

/-- Witness for c1_amended at a concrete state and payload list. -/
theorem c1_amended_witness :
    ({ data_queue := [], stats := {} } : IngestState).data_queue.length ≤
      SYSTEM_CONFIG_buffer_size ∧
    ((process_all { data_queue := [], stats := {} }
        [.parsed goodPayloadData]).data_queue.length ≤ SYSTEM_CONFIG_buffer_size ∧
      (({ data_queue := [], stats := {} } : IngestState).data_queue.length =
          SYSTEM_CONFIG_buffer_size →
        process_sensor_data { data_queue := [], stats := {} } .badJson =
          { data_queue := [], stats := {} })) :=
  ⟨by decide, c1_amended { data_queue := [], stats := {} }
    [.parsed goodPayloadData] .badJson (by decide)⟩

/-- Claim C3 (counterexample): a payload whose sensors key is present
but maps to an EMPTY channel map is not treated as malformed: a
SensorReading is created and enqueued, mutating the queue, contrary to
the claim that a payload lacking a non-empty sensor-channel map
produces no reading and no queue mutation. -/
theorem c3_counterexample :
    emptyMapPayloadData.sensors = some [] ∧
    (process_sensor_data { data_queue := [], stats := {} }
      (.parsed emptyMapPayloadData)).data_queue.length = 1 ∧
    process_sensor_data { data_queue := [], stats := {} }
      (.parsed emptyMapPayloadData) ≠ { data_queue := [], stats := {} } := by
  refine ⟨rfl, by decide, by decide⟩

/-- Claim C3 (amended): a payload missing the device_id key, the
timestamp key, or the sensors key (and likewise a payload that fails
JSON decoding) is dropped by the decoder: no SensorReading is produced,
the state (queue and counters) is unchanged, and nothing records the
payload for a retry.  A present-but-empty sensors map, however, is
accepted. -/
theorem c3_amended (st : IngestState) (d : PayloadData)
    (h : d.device_id = none ∨ d.timestamp = none ∨ d.sensors = none) :
    process_sensor_data st (.parsed d) = st ∧
    process_sensor_data st .badJson = st := by
  constructor
  · unfold process_sensor_data
    rcases hd : d.device_id with _ | dev <;>
      rcases ht : d.timestamp with _ | ts <;>
        rcases hs : d.sensors with _ | ss <;>
          simp only [hd, ht, hs]
    rcases h with h | h | h
    · rw [hd] at h; exact absurd h (by simp)
    · rw [ht] at h; exact absurd h (by simp)
    · rw [hs] at h; exact absurd h (by simp)
  · rfl

/-- Witness for c3_amended: a payload with no device identifier. -/
theorem c3_amended_witness :
    ({ goodPayloadData with device_id := none } : PayloadData).device_id = none ∧
    (process_sensor_data { data_queue := [], stats := {} }
        (.parsed { goodPayloadData with device_id := none }) =
        { data_queue := [], stats := {} } ∧
      process_sensor_data { data_queue := [], stats := {} } .badJson =
        { data_queue := [], stats := {} }) :=
  ⟨rfl, c3_amended { data_queue := [], stats := {} }
    { goodPayloadData with device_id := none } (Or.inl rfl)⟩

/-- Claim C4 (counterexample): a store that fails the first attempt but
would succeed on any retry.  The claim says the insert is retried up to
max_retries (3) times; the code performs exactly one store attempt,
reports failure, and counts it, so the configured max_retries is never
used. -/
theorem c4_counterexample :
    SYSTEM_CONFIG_max_retries = 3 ∧
    (insert_sensor_data (fun i => decide (0 < i)) {}).2.2 = 1 ∧
    (insert_sensor_data (fun i => decide (0 < i)) {}).2.1 = false ∧
    (insert_sensor_data (fun i => decide (0 < i)) {}).1.failed_inserts = 1 := by
  decide

/-- Claim C4 (amended): a persistence call that fails is attempted
exactly once (no retry loop exists; the max_retries configuration is
unused); on the failure the transaction is rolled back (total_records
is unchanged), failed_inserts is incremented by exactly 1, and the
reading is dropped, never re-queued: the queue after a batch iteration
is exactly the original queue minus the drained batch, regardless of
insert outcomes. -/
theorem c4_amended (f : ℕ → Bool) (st : DatabaseStats)
    (g : SensorReading → Bool) (q : List SensorReading) (st2 : DatabaseStats)
    (hf : f 0 = false) :
    (insert_sensor_data f st).2.2 = 1 ∧
    (insert_sensor_data f st).2.1 = false ∧
    (insert_sensor_data f st).1.failed_inserts = st.failed_inserts + 1 ∧
    (insert_sensor_data f st).1.total_records = st.total_records ∧
    (data_processing_iteration g q st2).1 =
      q.drop SYSTEM_CONFIG_batch_insert_size := by
  simp [insert_sensor_data, hf, data_processing_iteration]

/-- Witness for c4_amended at a concrete always-failing store. -/
theorem c4_amended_witness :
    (fun _ : ℕ => false) 0 = false ∧
    ((insert_sensor_data (fun _ => false) {}).2.2 = 1 ∧
      (insert_sensor_data (fun _ => false) {}).2.1 = false ∧
      (insert_sensor_data (fun _ => false) {}).1.failed_inserts =
        DatabaseStats.failed_inserts {} + 1 ∧
      (insert_sensor_data (fun _ => false) {}).1.total_records =
        DatabaseStats.total_records {} ∧
      (data_processing_iteration (fun _ => false) [sampleReading] {}).1 =
        [sampleReading].drop SYSTEM_CONFIG_batch_insert_size) :=
  ⟨rfl, c4_amended (fun _ => false) {} (fun _ => false) [sampleReading] {} rfl⟩

/-- Claim C9 (counterexample): calling start() while the pipeline is
already RUNNING is not a no-op: the method unconditionally creates and
starts a fresh processing thread and a fresh monitoring thread, so two
additional loops are launched (the status string itself stays
RUNNING). -/
theorem c9_counterexample :
    ((pipeline_start true {}).1).metrics.pipeline_status = "RUNNING" ∧
    (pipeline_start true (pipeline_start true {}).1).1.threads_started =
      ((pipeline_start true {}).1).threads_started + 2 ∧
    (pipeline_start true (pipeline_start true {}).1).1 ≠
      (pipeline_start true {}).1 := by
  decide

/-- Claim C9 (amended): calling start() while the orchestrator is
RUNNING leaves pipeline_status unchanged (it is reassigned the same
RUNNING value) and returns True, but it is not a no-op: it launches
two additional background loops (a new processing thread and a new
monitoring thread). -/
theorem c9_amended (s : EtlPipelineState)
    (h : s.metrics.pipeline_status = "RUNNING") :
    (pipeline_start true s).1.metrics.pipeline_status =
      s.metrics.pipeline_status ∧
    (pipeline_start true s).1.threads_started = s.threads_started + 2 ∧
    (pipeline_start true s).2 = true := by
  simp [pipeline_start, h]

/-- Witness for c9_amended at the state reached by one successful
start. -/
theorem c9_amended_witness :
    ((pipeline_start true {}).1).metrics.pipeline_status = "RUNNING" ∧
    ((pipeline_start true (pipeline_start true {}).1).1.metrics.pipeline_status =
        ((pipeline_start true {}).1).metrics.pipeline_status ∧
      (pipeline_start true (pipeline_start true {}).1).1.threads_started =
        ((pipeline_start true {}).1).threads_started + 2 ∧
      (pipeline_start true (pipeline_start true {}).1).2 = true) :=
  ⟨by decide, c9_amended (pipeline_start true {}).1 (by decide)⟩

/-- Claim C10: the quality-check stage is not read-only on its input:
for every window, perform_data_quality_checks hands back the window
with the DATAHORA_MEDICAO column reassigned through to_datetime (the
in-place column assignment of line 289, modelled as the returned
state), and on a window holding a raw timestamp the returned window
differs from the input. -/
theorem c10_checks_mutate_window :
    (∀ (df : List Row) (now : ℤ),
      (perform_data_quality_checks df now).2 =
        df.map (fun r => { r with datahora := toDatetimeVal r.datahora })) ∧
    (perform_data_quality_checks [rowRawTime] 0).2 ≠ [rowRawTime] := by
  refine ⟨fun df now => rfl, by decide⟩

/-- Claim C2 (counterexample): three consecutive quality-rejected
cycles starting from RUNNING leave the status at RUNNING, not
DEGRADED: nothing in the source ever assigns the DEGRADED status.
Each of the three cycles on this window is indeed aborted by the
quality gate (ok = false, errors_count grows by one per cycle). -/
theorem c2_counterexample :
    (run_etl_cycle mRunning [rowBad] 0 0).ok = false ∧
    (run_etl_cycle (run_etl_cycle mRunning [rowBad] 0 0).metrics
      [rowBad] 0 0).ok = false ∧
    (run_etl_cycle (run_etl_cycle (run_etl_cycle mRunning [rowBad] 0 0).metrics
      [rowBad] 0 0).metrics [rowBad] 0 0).ok = false ∧
    (run_etl_cycle (run_etl_cycle (run_etl_cycle mRunning [rowBad] 0 0).metrics
      [rowBad] 0 0).metrics [rowBad] 0 0).metrics.errors_count = 3 ∧
    (run_etl_cycle (run_etl_cycle (run_etl_cycle mRunning [rowBad] 0 0).metrics
      [rowBad] 0 0).metrics [rowBad] 0 0).metrics.pipeline_status = "RUNNING" ∧
    (run_etl_cycle (run_etl_cycle (run_etl_cycle mRunning [rowBad] 0 0).metrics
      [rowBad] 0 0).metrics [rowBad] 0 0).metrics.pipeline_status ≠
      "DEGRADED" := by
  decide

/-- Claim C2 (amended): no ETL cycle, aborted or successful, ever
changes pipeline_status; in particular repeated quality rejections
never move the status to DEGRADED (no DEGRADED assignment exists in
the source), and the status changes only through start (RUNNING) and
stop (STOPPED). -/
theorem c2_amended (m : PipelineMetrics) (df : List Row) (now : ℤ)
    (t : ℚ) :
    (run_etl_cycle m df now t).metrics.pipeline_status = m.pipeline_status := by
  unfold run_etl_cycle
  split
  · rfl
  · dsimp only
    split
    · rfl
    · rfl

/-- Helper: the abort branch of run_etl_cycle, reached exactly when
some check failed with more than 20 percent affected records. -/
theorem run_etl_cycle_abort (m : PipelineMetrics) (df : List Row) (now : ℤ)
    (t : ℚ) (hne : df ≠ [])
    (hcrit : (perform_data_quality_checks df now).1.filter (fun c =>
        !c.passed && decide (df.length < 5 * c.affected_records)) ≠ []) :
    run_etl_cycle m df now t =
      { metrics := { m with errors_count := m.errors_count + 1 }, ok := false,
        checks := (perform_data_quality_checks df now).1, transformed := none,
        aggregations := none, exported := false } := by
  have h1 : df.isEmpty = false := List.isEmpty_eq_false.mpr hne
  have h2 : ((perform_data_quality_checks df now).1.filter (fun c =>
      !c.passed && decide (df.length < 5 * c.affected_records))).isEmpty = false :=
    List.isEmpty_eq_false.mpr hcrit
  unfold run_etl_cycle
  rw [h1]
  dsimp only
  rw [h2]
  rfl

/-- Helper: the success branch of run_etl_cycle, reached exactly when
no check failed with more than 20 percent affected records. -/
theorem run_etl_cycle_proceed (m : PipelineMetrics) (df : List Row) (now : ℤ)
    (t : ℚ) (hne : df ≠ [])
    (hok : (perform_data_quality_checks df now).1.filter (fun c =>
        !c.passed && decide (df.length < 5 * c.affected_records)) = []) :
    run_etl_cycle m df now t =
      { metrics :=
          { m with
            ml_predictions := m.ml_predictions +
              (distinctKeys
                ((clean_and_transform_data
                  (perform_data_quality_checks df now).2).map
                    (fun r => r.id_maquina))).length
            records_processed := m.records_processed + df.length
            last_run_set := true
            average_processing_time := updateAverage m.average_processing_time t }
        ok := true
        checks := (perform_data_quality_checks df now).1
        transformed := some (clean_and_transform_data
          (perform_data_quality_checks df now).2)
        aggregations := some (aggregate_data_for_reporting
          (clean_and_transform_data (perform_data_quality_checks df now).2))
        exported := true } := by
  have h1 : df.isEmpty = false := List.isEmpty_eq_false.mpr hne
  unfold run_etl_cycle
  rw [h1]
  dsimp only
  rw [hok]
  rfl

/-- Helper: the existence of a critical check failure is the same as
the filtered critical list being non-empty. -/
theorem critical_exists_iff (df : List Row) (now : ℤ) :
    (∃ c ∈ (perform_data_quality_checks df now).1,
        c.passed = false ∧ df.length < 5 * c.affected_records) ↔
      (perform_data_quality_checks df now).1.filter (fun c =>
        !c.passed && decide (df.length < 5 * c.affected_records)) ≠ [] := by
  rw [Ne, List.filter_eq_nil_iff]
  constructor
  · rintro ⟨c, hm, h1, h2⟩ hall
    exact hall c hm (by simp [h1, h2])
  · intro hall
    by_contra hno
    push_neg at hno
    apply hall
    intro c hm
    simp only [Bool.and_eq_true, Bool.not_eq_true', decide_eq_true_eq, not_and]
    intro hp hlt
    exact absurd hlt (not_lt.mpr (hno c hm hp))

/-- Claim C5: for a non-empty extracted window, the cycle is aborted
(no transform, aggregation or export is produced, records_processed is
unchanged, errors_count is incremented by exactly 1, run_etl_cycle
returns False) if and only if some single quality check failed with an
affected-record count exceeding 20 percent of the window size;
otherwise the cycle proceeds through transform, aggregation and export
and records_processed grows by the window size.  (An empty extraction
returns early without running any stage, so the claim is stated for
actual windows.) -/
theorem c5_quality_gate (m : PipelineMetrics) (df : List Row) (now : ℤ)
    (t : ℚ) (h : df ≠ []) :
    ((∃ c ∈ (perform_data_quality_checks df now).1,
        c.passed = false ∧ df.length < 5 * c.affected_records) →
      (run_etl_cycle m df now t).ok = false ∧
      (run_etl_cycle m df now t).metrics.errors_count = m.errors_count + 1 ∧
      (run_etl_cycle m df now t).transformed = none ∧
      (run_etl_cycle m df now t).aggregations = none ∧
      (run_etl_cycle m df now t).exported = false ∧
      (run_etl_cycle m df now t).metrics.records_processed =
        m.records_processed) ∧
    ((¬ ∃ c ∈ (perform_data_quality_checks df now).1,
        c.passed = false ∧ df.length < 5 * c.affected_records) →
      (run_etl_cycle m df now t).ok = true ∧
      (run_etl_cycle m df now t).metrics.errors_count = m.errors_count ∧
      (run_etl_cycle m df now t).transformed =
        some (clean_and_transform_data
          (perform_data_quality_checks df now).2) ∧
      (run_etl_cycle m df now t).aggregations =
        some (aggregate_data_for_reporting
          (clean_and_transform_data (perform_data_quality_checks df now).2)) ∧
      (run_etl_cycle m df now t).exported = true ∧
      (run_etl_cycle m df now t).metrics.records_processed =
        m.records_processed + df.length) := by
  constructor
  · intro hex
    rw [run_etl_cycle_abort m df now t h ((critical_exists_iff df now).mp hex)]
    exact ⟨rfl, rfl, rfl, rfl, rfl, rfl⟩
  · intro hno
    have hnil : (perform_data_quality_checks df now).1.filter (fun c =>
        !c.passed && decide (df.length < 5 * c.affected_records)) = [] := by
      by_contra hne2
      exact hno ((critical_exists_iff df now).mpr hne2)
    rw [run_etl_cycle_proceed m df now t h hnil]
    exact ⟨rfl, rfl, rfl, rfl, rfl, rfl⟩

/-- Witness for c5_quality_gate on a concrete one-row window with
benign values: no check is critical, so the implications apply; the
second one fires. -/
theorem c5_quality_gate_witness :
    ([rowBase] : List Row) ≠ [] ∧
    (¬ ∃ c ∈ (perform_data_quality_checks [rowBase] 0).1,
        c.passed = false ∧ ([rowBase] : List Row).length <
          5 * c.affected_records) ∧
    (run_etl_cycle mRunning [rowBase] 0 0).ok = true ∧
    (run_etl_cycle mRunning [rowBase] 0 0).metrics.records_processed =
      mRunning.records_processed + ([rowBase] : List Row).length :=
  ⟨by decide, by decide,
    ((c5_quality_gate mRunning [rowBase] 0 0 (by decide)).2 (by decide)).1,
    (((((c5_quality_gate mRunning [rowBase] 0 0 (by decide)).2
      (by decide)).2).2).2).2.2⟩

/-- Helper: converting the timestamp column does not change the
carried timestamp, so the future-timestamp count is the same before
and after the to_datetime conversion. -/
theorem futureCount_conv (df : List Row) (now : ℤ) :
    futureCount (df.map (fun r =>
      { r with datahora := toDatetimeVal r.datahora })) now =
      futureCount df now := by
  unfold futureCount
  rw [List.filter_map, List.length_map]
  congr 1
  apply List.filter_congr
  intro r hr
  cases h : r.datahora <;> simp [Function.comp, timeKey, toDatetimeVal, h]

/-- Claim C8: in a window of 20k rows in which exactly one channel is
null in exactly 15 percent of the rows (3k null cells) and no other
check condition is violated, the null-ratio check FAILS (3k null cells
is not below the 10 percent flag threshold of 2k) but the window is
not rejected (3k does not exceed the 20 percent rejection threshold of
4k), so the cycle proceeds through transform, aggregation and export
with errors_count unchanged. -/
theorem c8_flag_without_reject (m : PipelineMetrics) (df : List Row)
    (now : ℤ) (t : ℚ) (k : ℕ) (hk : 0 < k) (hlen : df.length = 20 * k)
    (hnull : nullCount df = 3 * k) (htemp : tempOutliers df = 0)
    (hdup : dupCount df = 0) (hfut : futureCount df now = 0) :
    ((perform_data_quality_checks df now).1.map (fun c =>
        (c.check_name, c.passed))) =
      [("NULL_VALUES", false), ("TEMPERATURE_RANGE", true),
       ("DUPLICATES", true), ("FUTURE_TIMESTAMPS", true)] ∧
    (run_etl_cycle m df now t).ok = true ∧
    (run_etl_cycle m df now t).metrics.errors_count = m.errors_count ∧
    (run_etl_cycle m df now t).transformed ≠ none ∧
    (run_etl_cycle m df now t).metrics.records_processed =
      m.records_processed + df.length := by
  have hfut2 : futureCount (df.map (fun r =>
      { r with datahora := toDatetimeVal r.datahora })) now = 0 := by
    rw [futureCount_conv]; exact hfut
  have hchecks : (perform_data_quality_checks df now).1 =
      [{ check_name := "NULL_VALUES", passed := false,
         message := "Encontrados " ++ toString (3 * k) ++ " valores nulos",
         timestamp := now, affected_records := 3 * k },
       { check_name := "TEMPERATURE_RANGE", passed := true,
         message := "Temperatura fora do range: " ++ toString 0 ++ " registros",
         timestamp := now, affected_records := 0 },
       { check_name := "DUPLICATES", passed := true,
         message := "Registros duplicados: " ++ toString 0,
         timestamp := now, affected_records := 0 },
       { check_name := "FUTURE_TIMESTAMPS", passed := true,
         message := "Timestamps futuros: " ++ toString 0 ++ " registros",
         timestamp := now, affected_records := 0 }] := by
    unfold perform_data_quality_checks
    rw [hnull, htemp, hdup, hlen]
    dsimp only
    rw [hfut2]
    have hp1 : decide (10 * (3 * k) < 20 * k) = false := by
      simp; omega
    rw [hp1]
    simp
  have hne : df ≠ [] := by
    intro hcon
    rw [hcon] at hlen
    simp at hlen
    omega
  have hnil : (perform_data_quality_checks df now).1.filter (fun c =>
      !c.passed && decide (df.length < 5 * c.affected_records)) = [] := by
    rw [hchecks, hlen]
    have : decide (20 * k < 5 * (3 * k)) = false := by simp; omega
    simp [List.filter, this]
  refine ⟨by rw [hchecks]; rfl, ?_, ?_, ?_, ?_⟩ <;>
    rw [run_etl_cycle_proceed m df now t hne hnil]
  all_goals simp

/-- A 20-row window with distinct keys, benign values, and the
temperature channel null in exactly the first 3 rows (15 percent). -/
def c8df : List Row :=
  (List.range 20).map (fun i =>
    { rowBase with
        id_medicao := (i : ℤ)
        vl_temperatura := if i < 3 then none else some 25 })

/-- Witness for c8_flag_without_reject on the concrete 20-row
window. -/
theorem c8_flag_without_reject_witness :
    (0 < 1 ∧ c8df.length = 20 * 1 ∧ nullCount c8df = 3 * 1 ∧
      tempOutliers c8df = 0 ∧ dupCount c8df = 0 ∧ futureCount c8df 0 = 0) ∧
    (((perform_data_quality_checks c8df 0).1.map (fun c =>
        (c.check_name, c.passed))) =
      [("NULL_VALUES", false), ("TEMPERATURE_RANGE", true),
       ("DUPLICATES", true), ("FUTURE_TIMESTAMPS", true)] ∧
      (run_etl_cycle mRunning c8df 0 0).ok = true ∧
      (run_etl_cycle mRunning c8df 0 0).metrics.errors_count =
        mRunning.errors_count ∧
      (run_etl_cycle mRunning c8df 0 0).transformed ≠ none ∧
      (run_etl_cycle mRunning c8df 0 0).metrics.records_processed =
        mRunning.records_processed + c8df.length) :=
  ⟨⟨by decide, by decide, by decide, by decide, by decide, by decide⟩,
    c8_flag_without_reject mRunning c8df 0 0 1 (by decide) (by decide)
      (by decide) (by decide) (by decide) (by decide)⟩

/-!
## Quantile and clipping lemmas

These support the outlier-clipping claims: the interpolated quartiles
of a column are left unchanged by clipping the column to
[Q1 - 3 IQR, Q3 + 3 IQR], which is what makes the transform stage
idempotent on its own output.
-/

/-- The getD value does not depend on the default inside the range. -/
theorem getD_irrel (s : List ℚ) (i : ℕ) (h : i < s.length) (d : ℚ) :
    s.getD i d = s.getD i 0 := by
  rw [List.getD_eq_getElem s d h, List.getD_eq_getElem s 0 h]

/-- getD through map, inside the range. -/
theorem getD_map (f : ℚ → ℚ) (s : List ℚ) (i : ℕ) (h : i < s.length)
    (d : ℚ) : (s.map f).getD i d = f (s.getD i 0) := by
  rw [List.getD_eq_getElem _ d (by simpa using h),
    List.getD_eq_getElem s 0 h, List.getElem_map]

/-- Sorted lists have monotone entries. -/
theorem getD_mono_of_sorted (s : List ℚ) (hs : s.Sorted (· ≤ ·))
    {i j : ℕ} (hij : i ≤ j) (hj : j < s.length) :
    s.getD i 0 ≤ s.getD j 0 := by
  rcases eq_or_lt_of_le hij with rfl | hlt
  · exact le_rfl
  · rw [List.getD_eq_getElem s 0 (lt_of_le_of_lt hij hj),
      List.getD_eq_getElem s 0 hj]
    exact List.Sorted.rel_get_of_lt hs (a := ⟨i, lt_of_le_of_lt hij hj⟩)
      (b := ⟨j, hj⟩) hlt

/-- Floor and fractional part of a natural number divided by 4. -/
theorem floor_natCast_div_four (m : ℕ) :
    (Int.floor ((m : ℚ) / 4)).toNat = m / 4 ∧
    (m : ℚ) / 4 - ((m / 4 : ℕ) : ℚ) = ((m % 4 : ℕ) : ℚ) / 4 := by
  have hcast : (m : ℚ) = 4 * ((m / 4 : ℕ) : ℚ) + ((m % 4 : ℕ) : ℚ) := by
    exact_mod_cast (Nat.div_add_mod m 4).symm
  have hmod : ((m % 4 : ℕ) : ℚ) < 4 := by
    have h : m % 4 < 4 := Nat.mod_lt _ (by norm_num)
    exact_mod_cast h
  have hmod0 : (0 : ℚ) ≤ ((m % 4 : ℕ) : ℚ) := by positivity
  have hzc : ((((m / 4 : ℕ) : ℤ)) : ℚ) = ((m / 4 : ℕ) : ℚ) := by
    norm_cast
  have hfl : Int.floor ((m : ℚ) / 4) = ((m / 4 : ℕ) : ℤ) := by
    rw [Int.floor_eq_iff]
    rw [hzc]
    constructor
    · linarith [hcast, hmod0]
    · linarith [hcast, hmod]
  rw [hfl]
  exact ⟨Int.toNat_natCast _, by linarith [hcast]⟩

/-- Characterization of the first quartile on a list of length m+1. -/
theorem quantileSorted_quarter (s : List ℚ) (m : ℕ)
    (hm : s.length = m + 1) :
    quantileSorted s (1 / 4) =
      s.getD (m / 4) 0 +
        (((m % 4 : ℕ) : ℚ) / 4) *
          (s.getD (m / 4 + 1) (s.getD (m / 4) 0) - s.getD (m / 4) 0) := by
  have hh : (1 / 4 : ℚ) * ((s.length : ℚ) - 1) = (m : ℚ) / 4 := by
    rw [hm]; push_cast; ring
  obtain ⟨hfl, hfr⟩ := floor_natCast_div_four m
  unfold quantileSorted
  dsimp only
  rw [hh, hfl, hfr]

/-- Characterization of the third quartile on a list of length m+1. -/
theorem quantileSorted_threequarter (s : List ℚ) (m : ℕ)
    (hm : s.length = m + 1) :
    quantileSorted s (3 / 4) =
      s.getD (3 * m / 4) 0 +
        (((3 * m % 4 : ℕ) : ℚ) / 4) *
          (s.getD (3 * m / 4 + 1) (s.getD (3 * m / 4) 0) -
            s.getD (3 * m / 4) 0) := by
  have hh : (3 / 4 : ℚ) * ((s.length : ℚ) - 1) = ((3 * m : ℕ) : ℚ) / 4 := by
    rw [hm]; push_cast; ring
  obtain ⟨hfl, hfr⟩ := floor_natCast_div_four (3 * m)
  unfold quantileSorted
  dsimp only
  rw [hh, hfl, hfr]

/-- clampQ leaves values inside the bounds unchanged. -/
theorem clampQ_eq_self {lo hi x : ℚ} (h1 : lo ≤ x) (h2 : x ≤ hi) :
    clampQ lo hi x = x := by
  unfold clampQ
  rw [max_eq_right h1, min_eq_right h2]

/-- clampQ maps below-range values to the lower bound. -/
theorem clampQ_of_lt {lo hi x : ℚ} (hb : lo ≤ hi) (h : x < lo) :
    clampQ lo hi x = lo := by
  unfold clampQ
  rw [max_eq_left h.le, min_eq_right hb]

/-- clampQ maps above-range values to the upper bound. -/
theorem clampQ_of_gt {lo hi x : ℚ} (hb : lo ≤ hi) (h : hi < x) :
    clampQ lo hi x = hi := by
  unfold clampQ
  rw [max_eq_right (hb.trans h.le), min_eq_left h.le]

/-- The clamped value lies inside the bounds. -/
theorem clampQ_mem {lo hi : ℚ} (hb : lo ≤ hi) (x : ℚ) :
    lo ≤ clampQ lo hi x ∧ clampQ lo hi x ≤ hi := by
  unfold clampQ
  constructor
  · exact le_min hb (le_max_left _ _)
  · exact min_le_left _ _

/-- clampQ is idempotent when the bounds are ordered. -/
theorem clampQ_idem {lo hi : ℚ} (hb : lo ≤ hi) (x : ℚ) :
    clampQ lo hi (clampQ lo hi x) = clampQ lo hi x :=
  clampQ_eq_self (clampQ_mem hb x).1 (clampQ_mem hb x).2

/-- clampQ is monotone in its argument. -/
theorem clampQ_mono {lo hi x y : ℚ} (h : x ≤ y) :
    clampQ lo hi x ≤ clampQ lo hi y :=
  min_le_min le_rfl (max_le_max le_rfl h)

set_option maxHeartbeats 1600000 in
/-- Clipping a sorted column to [Q1 - 3 IQR, Q3 + 3 IQR] does not
change its interpolated quartiles: the order statistics read by the
quartile interpolation always lie inside the clip interval (the
interpolation fractions can only be 0, 1/4, 1/2 or 3/4, which caps how
far the interpolated quartile can sit from the entries it reads).
Consequently Q1 ≤ Q3 and the clipped column reproduces the same
bounds. -/
theorem quantile_clamp_stable (s : List ℚ) (hs : s.Sorted (· ≤ ·))
    (hne : s ≠ []) (q1 q3 lo hi : ℚ)
    (hq1 : q1 = quantileSorted s (1 / 4))
    (hq3 : q3 = quantileSorted s (3 / 4))
    (hlo : lo = q1 - 3 * (q3 - q1)) (hhi : hi = q3 + 3 * (q3 - q1)) :
    q1 ≤ q3 ∧
    quantileSorted (s.map (clampQ lo hi)) (1 / 4) = q1 ∧
    quantileSorted (s.map (clampQ lo hi)) (3 / 4) = q3 := by
  obtain ⟨m, hm⟩ : ∃ m, s.length = m + 1 := by
    cases s with
    | nil => exact absurd rfl hne
    | cons a t => exact ⟨t.length, rfl⟩
  have hmlen : (s.map (clampQ lo hi)).length = m + 1 := by simpa using hm
  rw [quantileSorted_quarter s m hm] at hq1
  rw [quantileSorted_threequarter s m hm] at hq3
  rw [quantileSorted_quarter (s.map (clampQ lo hi)) m hmlen,
    quantileSorted_threequarter (s.map (clampQ lo hi)) m hmlen]
  by_cases hm0 : m = 0
  · subst hm0
    simp only [Nat.zero_div, Nat.zero_mod, Nat.mul_zero, Nat.cast_zero,
      zero_div, zero_mul, add_zero, Nat.mul_zero] at hq1 hq3 ⊢
    have h0 : (0 : ℕ) < s.length := by omega
    have hmap0 : (s.map (clampQ lo hi)).getD 0 0 = clampQ lo hi (s.getD 0 0) :=
      getD_map _ s 0 h0 0
    have hq13 : q1 = q3 := by rw [hq1, hq3]
    have hlo' : lo = q1 := by rw [hlo, hq13]; ring
    have hhi' : hi = q1 := by rw [hhi, hq13]; ring
    have hcc : clampQ lo hi (s.getD 0 0) = s.getD 0 0 := by
      rw [hlo', hhi', hq1]
      exact clampQ_eq_self le_rfl le_rfl
    rw [hmap0, hcc]
    exact ⟨le_of_eq hq13, hq1.symm, hq3.symm⟩
  by_cases hm1 : m = 1
  · subst hm1
    have h0 : (0 : ℕ) < s.length := by omega
    have h1 : (1 : ℕ) < s.length := by omega
    simp only [show (1 : ℕ) / 4 = 0 by norm_num,
      show (1 : ℕ) % 4 = 1 by norm_num,
      show (3 * 1 : ℕ) / 4 = 0 by norm_num,
      show (3 * 1 : ℕ) % 4 = 3 by norm_num, Nat.cast_one, Nat.cast_ofNat,
      zero_add] at hq1 hq3 ⊢
    rw [getD_irrel s 1 h1] at hq1 hq3
    have hab : s.getD 0 0 ≤ s.getD 1 0 := getD_mono_of_sorted s hs (by omega) h1
    have hq13 : q1 ≤ q3 := by
      rw [hq1, hq3]
      nlinarith [hab]
    have hloa : lo ≤ s.getD 0 0 := by
      rw [hlo, hq1, hq3]; nlinarith [hab]
    have hahi : s.getD 0 0 ≤ hi := by
      rw [hhi, hq1, hq3]; nlinarith [hab]
    have hlob : lo ≤ s.getD 1 0 := by
      rw [hlo, hq1, hq3]; nlinarith [hab]
    have hbhi : s.getD 1 0 ≤ hi := by
      rw [hhi, hq1, hq3]; nlinarith [hab]
    have hmap0 : (s.map (clampQ lo hi)).getD 0 0 = clampQ lo hi (s.getD 0 0) :=
      getD_map _ s 0 h0 0
    have hmap1 : (s.map (clampQ lo hi)).getD 1
        ((s.map (clampQ lo hi)).getD 0 0) = clampQ lo hi (s.getD 1 0) := by
      rw [getD_irrel _ 1 (by simpa using h1), getD_map _ s 1 h1 0]
    rw [hmap1, hmap0, clampQ_eq_self hloa hahi, clampQ_eq_self hlob hbhi]
    exact ⟨hq13, hq1.symm, hq3.symm⟩
  have hm2 : 2 ≤ m := by omega
  have hii : m / 4 + 1 ≤ 3 * m / 4 := by omega
  have hi3m : 3 * m / 4 + 1 ≤ m := by omega
  have hi1len : m / 4 < s.length := by omega
  have hi1len' : m / 4 + 1 < s.length := by omega
  have hi3len : 3 * m / 4 < s.length := by omega
  have hi3len' : 3 * m / 4 + 1 < s.length := by omega
  rw [getD_irrel s (m / 4 + 1) hi1len'] at hq1
  rw [getD_irrel s (3 * m / 4 + 1) hi3len'] at hq3
  set a := s.getD (m / 4) 0 with hadef
  set b := s.getD (m / 4 + 1) 0 with hbdef
  set u := s.getD (3 * m / 4) 0 with hudef
  set v := s.getD (3 * m / 4 + 1) 0 with hvdef
  set f1 : ℚ := ((m % 4 : ℕ) : ℚ) / 4 with hf1def
  set f3 : ℚ := ((3 * m % 4 : ℕ) : ℚ) / 4 with hf3def
  have hab : a ≤ b := getD_mono_of_sorted s hs (by omega) hi1len'
  have hbu : b ≤ u := getD_mono_of_sorted s hs hii hi3len
  have huv : u ≤ v := getD_mono_of_sorted s hs (by omega) hi3len'
  have hf1n : (0 : ℚ) ≤ f1 := by rw [hf1def]; positivity
  have hf1u : 4 * f1 ≤ 3 := by
    have h : ((m % 4 : ℕ) : ℚ) ≤ 3 := by
      have : m % 4 ≤ 3 := by omega
      exact_mod_cast this
    rw [hf1def]; linarith
  have hf3n : (0 : ℚ) ≤ f3 := by rw [hf3def]; positivity
  have hf3u : 4 * f3 ≤ 3 := by
    have h : ((3 * m % 4 : ℕ) : ℚ) ≤ 3 := by
      have : 3 * m % 4 ≤ 3 := by omega
      exact_mod_cast this
    rw [hf3def]; linarith
  have h_a_q1 : a ≤ q1 := by nlinarith [mul_nonneg hf1n (sub_nonneg.mpr hab)]
  have h_q1_b : q1 ≤ b := by
    nlinarith [mul_nonneg (by linarith : (0 : ℚ) ≤ 1 - f1)
      (sub_nonneg.mpr hab)]
  have h_u_q3 : u ≤ q3 := by nlinarith [mul_nonneg hf3n (sub_nonneg.mpr huv)]
  have h_q3_v : q3 ≤ v := by
    nlinarith [mul_nonneg (by linarith : (0 : ℚ) ≤ 1 - f3)
      (sub_nonneg.mpr huv)]
  have hq13 : q1 ≤ q3 := by linarith
  have h_lo_a : lo ≤ a := by
    nlinarith [mul_nonneg (by linarith : (0 : ℚ) ≤ 3 - 4 * f1)
      (sub_nonneg.mpr hab)]
  have h_b_hi : b ≤ hi := by linarith
  have h_lo_hi : lo ≤ hi := by linarith
  have hca : clampQ lo hi a = a := clampQ_eq_self h_lo_a (by linarith)
  have hcb : clampQ lo hi b = b := clampQ_eq_self (by linarith) h_b_hi
  have hcu : clampQ lo hi u = u := clampQ_eq_self (by linarith) (by linarith)
  have hmapa : (s.map (clampQ lo hi)).getD (m / 4) 0 = clampQ lo hi a :=
    getD_map _ s _ hi1len 0
  have hmapb : (s.map (clampQ lo hi)).getD (m / 4 + 1)
      ((s.map (clampQ lo hi)).getD (m / 4) 0) = clampQ lo hi b := by
    rw [getD_irrel _ _ (by simpa using hi1len'), getD_map _ s _ hi1len' 0]
  have hmapu : (s.map (clampQ lo hi)).getD (3 * m / 4) 0 = clampQ lo hi u :=
    getD_map _ s _ hi3len 0
  have hmapv : (s.map (clampQ lo hi)).getD (3 * m / 4 + 1)
      ((s.map (clampQ lo hi)).getD (3 * m / 4) 0) = clampQ lo hi v := by
    rw [getD_irrel _ _ (by simpa using hi3len'), getD_map _ s _ hi3len' 0]
  refine ⟨hq13, ?_, ?_⟩
  · rw [hmapb, hmapa, hca, hcb, hq1]
  · rw [hmapv, hmapu, hcu]
    rcases (by omega : 3 * m % 4 = 0 ∨ 1 ≤ 3 * m % 4) with h0 | h1
    · have hf30 : f3 = 0 := by rw [hf3def, h0]; norm_num
      rw [hq3, hf30]
      ring
    · have hf31 : (1 : ℚ) ≤ 4 * f3 := by
        have h : (1 : ℚ) ≤ ((3 * m % 4 : ℕ) : ℚ) := by exact_mod_cast h1
        rw [hf3def]; linarith
      have h_v_hi : v ≤ hi := by
        nlinarith [mul_nonneg (by linarith : (0 : ℚ) ≤ 4 * f3 - 1)
          (sub_nonneg.mpr huv)]
      rw [clampQ_eq_self (by linarith) h_v_hi, hq3]

/-- Sorting rationals with the boolean comparison yields a list sorted
for the ordinary order. -/
theorem sorted_mergeSort_rat (l : List ℚ) :
    (l.mergeSort ratLe).Sorted (· ≤ ·) := by
  have h := @List.sorted_mergeSort ℚ ratLe
    (fun a b c hab hbc => by
      simp only [ratLe, decide_eq_true_eq] at hab hbc ⊢
      exact le_trans hab hbc)
    (fun a b => by
      simp only [ratLe, Bool.or_eq_true, decide_eq_true_eq]
      exact le_total a b) l
  exact h.imp (fun hab => by simpa [ratLe] using hab)

/-- Sorting keeps the length. -/
theorem length_mergeSort_rat (l : List ℚ) :
    (l.mergeSort ratLe).length = l.length :=
  (List.mergeSort_perm l ratLe).length_eq

/-- Sorting a non-empty list gives a non-empty list. -/
theorem mergeSort_rat_ne_nil {l : List ℚ} (h : l ≠ []) :
    l.mergeSort ratLe ≠ [] := by
  intro hcon
  apply h
  have hlen := (List.mergeSort_perm l ratLe).length_eq
  rw [hcon] at hlen
  exact List.length_eq_zero.mp hlen.symm

/-- The IQR clip bounds of a non-empty column are ordered:
Q1 ≤ Q3, hence Q1 - 3 IQR ≤ Q3 + 3 IQR. -/
theorem iqrBounds_le (vals : List ℚ) (h : vals ≠ []) :
    (iqrBounds vals).1 ≤ (iqrBounds vals).2 := by
  obtain ⟨hle, -, -⟩ := quantile_clamp_stable (vals.mergeSort ratLe)
    (sorted_mergeSort_rat vals) (mergeSort_rat_ne_nil h)
    (quantileOf vals (1 / 4)) (quantileOf vals (3 / 4))
    (quantileOf vals (1 / 4) - 3 * (quantileOf vals (3 / 4) - quantileOf vals (1 / 4)))
    (quantileOf vals (3 / 4) + 3 * (quantileOf vals (3 / 4) - quantileOf vals (1 / 4)))
    rfl rfl rfl rfl
  unfold iqrBounds
  dsimp only
  linarith

/-- clipCellOf on a non-null cell of a non-empty column is the clamp
of the cell value. -/
theorem clipCellOf_some (vals : List ℚ) (h : vals ≠ []) (x : ℚ) :
    clipCellOf vals (some x) =
      some (clampQ (iqrBounds vals).1 (iqrBounds vals).2 x) := by
  unfold clipCellOf
  rw [if_neg (by simpa using h)]
  rfl

/-- Claim C7: outlier clipping preserves the row count, and on a
designated column (stated for VL_TEMPERATURA; VL_PRESSAO and
VL_VIBRACAO go through the same clipCellOf) with at least one non-null
value: the clip bounds Q1 - 3 IQR ≤ Q3 + 3 IQR are ordered, the output
column is exactly the input column clipped cell-wise, every non-null
output value lies inside [Q1 - 3 IQR, Q3 + 3 IQR], values already
inside the interval are unchanged, and values outside are replaced by
the nearer bound. -/
theorem c7_outlier_clipping (df : List Row) (h : tempVals df ≠ []) :
    (transformClip df).length = df.length ∧
    (iqrBounds (tempVals df)).1 ≤ (iqrBounds (tempVals df)).2 ∧
    (transformClip df).map (fun r => r.vl_temperatura) =
      (df.map (fun r => r.vl_temperatura)).map (clipCellOf (tempVals df)) ∧
    (∀ x : ℚ,
      ((iqrBounds (tempVals df)).1 ≤ x → x ≤ (iqrBounds (tempVals df)).2 →
        clipCellOf (tempVals df) (some x) = some x) ∧
      (x < (iqrBounds (tempVals df)).1 →
        clipCellOf (tempVals df) (some x) = some (iqrBounds (tempVals df)).1) ∧
      ((iqrBounds (tempVals df)).2 < x →
        clipCellOf (tempVals df) (some x) = some (iqrBounds (tempVals df)).2)) ∧
    (∀ y ∈ (transformClip df).filterMap (fun r => r.vl_temperatura),
      (iqrBounds (tempVals df)).1 ≤ y ∧ y ≤ (iqrBounds (tempVals df)).2) := by
  have hlohi := iqrBounds_le (tempVals df) h
  refine ⟨by simp [transformClip], hlohi, ?_, ?_, ?_⟩
  · simp only [transformClip, List.map_map]
    rfl
  · intro x
    refine ⟨fun h1 h2 => ?_, fun h1 => ?_, fun h1 => ?_⟩
    · rw [clipCellOf_some _ h, clampQ_eq_self h1 h2]
    · rw [clipCellOf_some _ h, clampQ_of_lt hlohi h1]
    · rw [clipCellOf_some _ h, clampQ_of_gt hlohi h1]
  · intro y hy
    rw [List.mem_filterMap] at hy
    obtain ⟨r', hr', hval⟩ := hy
    rw [transformClip, List.mem_map] at hr'
    obtain ⟨r, hr, rfl⟩ := hr'
    rw [show (clipRowWith (tempVals df) (presVals df) (vibrVals df) r).vl_temperatura =
        clipCellOf (tempVals df) r.vl_temperatura from rfl] at hval
    rcases hx : r.vl_temperatura with _ | x
    · rw [hx] at hval
      rw [clipCellOf] at hval
      split at hval
      · exact absurd hval (by simp)
      · exact absurd hval (by simp)
    · rw [hx] at hval
      rw [clipCellOf_some _ h] at hval
      have hyx : y = clampQ (iqrBounds (tempVals df)).1
          (iqrBounds (tempVals df)).2 x := by
        simpa using hval.symm
      rw [hyx]
      exact clampQ_mem hlohi x

/-- Witness for c7_outlier_clipping on a two-row window. -/
theorem c7_outlier_clipping_witness :
    tempVals [rowBase, rowBad] ≠ [] ∧
    ((transformClip [rowBase, rowBad]).length =
      ([rowBase, rowBad] : List Row).length ∧
      (iqrBounds (tempVals [rowBase, rowBad])).1 ≤
        (iqrBounds (tempVals [rowBase, rowBad])).2 ∧
      (transformClip [rowBase, rowBad]).map (fun r => r.vl_temperatura) =
        ([rowBase, rowBad].map (fun r => r.vl_temperatura)).map
          (clipCellOf (tempVals [rowBase, rowBad])) ∧
      (∀ x : ℚ,
        ((iqrBounds (tempVals [rowBase, rowBad])).1 ≤ x →
          x ≤ (iqrBounds (tempVals [rowBase, rowBad])).2 →
          clipCellOf (tempVals [rowBase, rowBad]) (some x) = some x) ∧
        (x < (iqrBounds (tempVals [rowBase, rowBad])).1 →
          clipCellOf (tempVals [rowBase, rowBad]) (some x) =
            some (iqrBounds (tempVals [rowBase, rowBad])).1) ∧
        ((iqrBounds (tempVals [rowBase, rowBad])).2 < x →
          clipCellOf (tempVals [rowBase, rowBad]) (some x) =
            some (iqrBounds (tempVals [rowBase, rowBad])).2)) ∧
      (∀ y ∈ (transformClip [rowBase, rowBad]).filterMap
          (fun r => r.vl_temperatura),
        (iqrBounds (tempVals [rowBase, rowBad])).1 ≤ y ∧
          y ≤ (iqrBounds (tempVals [rowBase, rowBad])).2)) :=
  ⟨by decide, c7_outlier_clipping [rowBase, rowBad] (by decide)⟩

/-!
## Transform idempotence (claim C6)

Support: cell-level facts, the invariance of the non-null column
values along the pipeline, and the fixed-point property of clipping
its own output.
-/

/-- Dropping the derived columns of a transformed window, as the claim
prescribes before the second transform run. -/
def dropDerived (r : Row) : Row :=
  { r with vibracao_magnitude := none, temp_status := none }

/-- Median fill never changes a non-null cell. -/
theorem fillCellMedian_some (vals : List ℚ) (x : ℚ) :
    fillCellMedian vals (some x) = some x := by
  unfold fillCellMedian
  split <;> rfl

/-- Zero fill never changes a non-null cell. -/
theorem fillCellZero_some (x : ℚ) : fillCellZero (some x) = some x := rfl

/-- Clipping keeps null cells null. -/
theorem clipCellOf_none (vals : List ℚ) : clipCellOf vals none = none := by
  unfold clipCellOf
  split <;> rfl

/-- On a non-empty column, clipping is the Option-map of the clamp. -/
theorem clipCellOf_eq_map (vals : List ℚ) (h : vals ≠ []) (v : Option ℚ) :
    clipCellOf vals v =
      v.map (clampQ (iqrBounds vals).1 (iqrBounds vals).2) := by
  unfold clipCellOf
  rw [if_neg (by simpa using h)]

/-- Clipping preserves definedness of a cell. -/
theorem clipCellOf_isSome (vals : List ℚ) (v : Option ℚ) :
    (clipCellOf vals v).isSome = v.isSome := by
  unfold clipCellOf
  split
  · rfl
  · simp

/-- filterMap of an Option-mapped column pulls the map outside. -/
theorem filterMap_optmap {α : Type} (g : ℚ → ℚ) (h : α → Option ℚ)
    (l : List α) :
    l.filterMap (fun r => (h r).map g) = (l.filterMap h).map g := by
  induction l with
  | nil => rfl
  | cons a t ih =>
    rcases ha : h a with _ | x <;>
      simp [List.filterMap_cons, ha, ih]

/-- A row map that leaves a column unchanged leaves the column values
unchanged. -/
theorem filterMap_map_invariant (g : Row → Option ℚ) (F : Row → Row)
    (hg : ∀ r, g (F r) = g r) (l : List Row) :
    (l.map F).filterMap g = l.filterMap g := by
  rw [List.filterMap_map]
  exact congrFun (congrArg List.filterMap (funext hg)) l

/-- A map whose function fixes every member is the identity. -/
theorem map_eq_self_of {α : Type} (l : List α) (f : α → α)
    (h : ∀ a ∈ l, f a = a) : l.map f = l :=
  (List.map_congr_left h).trans (List.map_id l)

/-- Mapping a monotone clamp over a sorted list keeps it sorted. -/
theorem sorted_map_clamp (lo hi : ℚ) (l : List ℚ)
    (h : l.Sorted (· ≤ ·)) :
    (l.map (clampQ lo hi)).Sorted (· ≤ ·) :=
  List.Pairwise.map (clampQ lo hi) (fun _ _ hab => clampQ_mono hab) h

/-- Clipping a column to the IQR bounds computed from itself fixes
every value of the resulting column: the clipped column reproduces the
same quartiles, hence the same bounds, and clamping is idempotent.
vals is any reordering of the clipped column. -/
theorem clamp_image_fixed (w vals : List ℚ)
    (hperm : vals.Perm (w.map (clampQ (iqrBounds w).1 (iqrBounds w).2))) :
    ∀ x ∈ vals,
      clampQ (iqrBounds vals).1 (iqrBounds vals).2 x = x := by
  intro x hx
  rcases eq_or_ne w [] with rfl | hw
  · rw [List.map_nil] at hperm
    rw [hperm.symm.nil_eq.symm] at hx
    exact absurd hx (List.not_mem_nil x)
  · have hb1 := iqrBounds_le w hw
    have hstab := quantile_clamp_stable (w.mergeSort ratLe)
      (sorted_mergeSort_rat w) (mergeSort_rat_ne_nil hw)
      (quantileOf w (1 / 4)) (quantileOf w (3 / 4))
      (iqrBounds w).1 (iqrBounds w).2 rfl rfl rfl rfl
    have hsortv : vals.mergeSort ratLe =
        (w.mergeSort ratLe).map
          (clampQ (iqrBounds w).1 (iqrBounds w).2) :=
      List.eq_of_perm_of_sorted
        ((List.mergeSort_perm vals ratLe).trans (hperm.trans
          ((List.mergeSort_perm w ratLe).symm.map _)))
        (sorted_mergeSort_rat vals)
        (sorted_map_clamp _ _ _ (sorted_mergeSort_rat w))
    have h14 : quantileOf vals (1 / 4) = quantileOf w (1 / 4) := by
      unfold quantileOf
      rw [hsortv]
      exact hstab.2.1
    have h34 : quantileOf vals (3 / 4) = quantileOf w (3 / 4) := by
      unfold quantileOf
      rw [hsortv]
      exact hstab.2.2
    have hbeq : iqrBounds vals = iqrBounds w := by
      unfold iqrBounds
      rw [h14, h34]
    have hx' := hperm.mem_iff.mp hx
    rw [List.mem_map] at hx'
    obtain ⟨y, -, rfl⟩ := hx'
    rw [hbeq]
    exact clampQ_idem hb1 _

/-- Clipping against an empty value list leaves the cell unchanged. -/
theorem clipCellOf_nil (v : Option ℚ) : clipCellOf [] v = v := rfl

/-- Median-filling from an empty value list leaves the cell
unchanged. -/
theorem fillCellMedian_nil (v : Option ℚ) : fillCellMedian [] v = v := rfl

/-- Setting temp_status to none, the shape of the frame between the
two derivation steps of a second transform run. -/
def dropStatusFun (r : Row) : Row := { r with temp_status := none }

/-- The column values of a clipped frame are the clamped column values
of the input frame (also in the degenerate all-null case, where both
sides are empty). -/
theorem vals_clip_gen (d : List Row) (G : Row → Option ℚ)
    (hproj : ∀ r, G (clipRowWith (tempVals d) (presVals d) (vibrVals d) r) =
      clipCellOf (d.filterMap G) (G r)) :
    (transformClip d).filterMap G =
      (d.filterMap G).map
        (clampQ (iqrBounds (d.filterMap G)).1 (iqrBounds (d.filterMap G)).2) := by
  unfold transformClip
  rw [List.filterMap_map]
  have hfn : (G ∘ clipRowWith (tempVals d) (presVals d) (vibrVals d)) =
      fun r => clipCellOf (d.filterMap G) (G r) := funext hproj
  rw [hfn]
  rcases eq_or_ne (d.filterMap G) [] with hv | hv
  · rw [hv]
    have hid : (fun r => clipCellOf [] (G r)) = fun r => G r :=
      funext fun r => clipCellOf_nil _
    rw [hid]
    simpa using hv
  · have hmapfn : (fun r => clipCellOf (d.filterMap G) (G r)) =
        fun r => (G r).map
          (clampQ (iqrBounds (d.filterMap G)).1 (iqrBounds (d.filterMap G)).2) :=
      funext fun r => clipCellOf_eq_map _ hv _
    rw [hmapfn, filterMap_optmap]

/-- The later pipeline stages (to_datetime, derivation, labelling,
sort, derived-column drop) only permute the rows and never touch a
measurement column, so the non-null column values are a permutation of
those of the frame entering step 3. -/
theorem vals_pipeline_perm (G : Row → Option ℚ)
    (h1 : ∀ r, G (dtRowFun r) = G r) (h2 : ∀ r, G (deriveRowFun r) = G r)
    (h3 : ∀ r, G (statusRowFun r) = G r) (h4 : ∀ r, G (dropDerived r) = G r)
    (l : List Row) :
    (((transformSort (transformStatus (transformDerive
        (transformDatetime l)))).map dropDerived).filterMap G).Perm
      (l.filterMap G) := by
  rw [filterMap_map_invariant G dropDerived h4]
  refine ((List.mergeSort_perm _ rowLe).filterMap G).trans ?_
  rw [transformStatus, filterMap_map_invariant G statusRowFun h3,
    transformDerive, filterMap_map_invariant G deriveRowFun h2,
    transformDatetime, filterMap_map_invariant G dtRowFun h1]

/-- After the fill step, a median-filled column is either entirely
null (when it had no values at all) or entirely non-null. -/
theorem fill_col_cases (d : List Row) (G : Row → Option ℚ)
    (hproj : ∀ r, G (fillRowWith (tempVals d) (presVals d) (humVals d) r) =
      fillCellMedian (d.filterMap G) (G r)) :
    ((transformFill d).filterMap G = [] ∧
      ∀ r ∈ transformFill d, G r = none) ∨
      (∀ r ∈ transformFill d, (G r).isSome) := by
  rcases eq_or_ne (d.filterMap G) [] with hv | hv
  · left
    have hall : ∀ r ∈ transformFill d, G r = none := by
      intro r hr
      rw [transformFill, List.mem_map] at hr
      obtain ⟨r0, hr0, rfl⟩ := hr
      rw [hproj r0, hv, List.forall_none_of_filterMap_eq_nil hv r0 hr0]
      rfl
    exact ⟨List.filterMap_eq_nil_iff.mpr hall, hall⟩
  · right
    intro r hr
    rw [transformFill, List.mem_map] at hr
    obtain ⟨r0, hr0, rfl⟩ := hr
    rw [hproj r0]
    unfold fillCellMedian
    rw [if_neg (by simpa using hv)]
    rfl

/-- After the fill step, a zero-filled column is entirely non-null. -/
theorem fill_col_some (d : List Row) (G : Row → Option ℚ)
    (hproj : ∀ r, G (fillRowWith (tempVals d) (presVals d) (humVals d) r) =
      fillCellZero (G r)) :
    ∀ r ∈ transformFill d, (G r).isSome := by
  intro r hr
  rw [transformFill, List.mem_map] at hr
  obtain ⟨r0, hr0, rfl⟩ := hr
  rw [hproj r0]
  rfl

/-- Every row of the transformed frame (before the derived-column
drop) is the image of a filled row under clip, to_datetime, derive and
label. -/
theorem mem_pipeline_char (D : List Row) (r : Row)
    (hr : r ∈ transformSort (transformStatus (transformDerive
      (transformDatetime (transformClip D))))) :
    ∃ r0 ∈ D, r = statusRowFun (deriveRowFun (dtRowFun
      (clipRowWith (tempVals D) (presVals D) (vibrVals D) r0))) := by
  have h1 : r ∈ transformStatus (transformDerive (transformDatetime
      (transformClip D))) := List.mem_mergeSort.mp hr
  rw [transformStatus, List.mem_map] at h1
  obtain ⟨r2, h2, rfl⟩ := h1
  rw [transformDerive, List.mem_map] at h2
  obtain ⟨r3, h3, rfl⟩ := h2
  rw [transformDatetime, List.mem_map] at h3
  obtain ⟨r4, h4, rfl⟩ := h3
  rw [transformClip, List.mem_map] at h4
  obtain ⟨r0, h0, rfl⟩ := h4
  exact ⟨r0, h0, rfl⟩

/-- On the transformed frame, the derived columns agree with their
defining expressions over the row's own measurement columns. -/
theorem pipeline_derived_invariants (D : List Row) (r : Row)
    (hr : r ∈ transformSort (transformStatus (transformDerive
      (transformDatetime (transformClip D))))) :
    r.vibracao_magnitude =
      magnitudeOf r.vl_vibr_x r.vl_vibr_y r.vl_vibr_z ∧
    r.temp_status = r.vl_temperatura.map tempStatusOf := by
  obtain ⟨r0, -, rfl⟩ := mem_pipeline_char D r hr
  exact ⟨rfl, rfl⟩

/-- fillna is the identity on a frame whose median columns are each
all-null or all-non-null and whose zero-filled columns are
non-null — which is exactly the shape a transformed frame has. -/
theorem transformFill_id (l : List Row)
    (ht : tempVals l = [] ∨ ∀ r ∈ l, (r.vl_temperatura).isSome)
    (hp : presVals l = [] ∨ ∀ r ∈ l, (r.vl_pressao).isSome)
    (hh : humVals l = [] ∨ ∀ r ∈ l, (r.vl_humidade).isSome)
    (hz : ∀ r ∈ l, (r.vl_vibracao).isSome ∧ (r.vl_vibr_x).isSome ∧
      (r.vl_vibr_y).isSome ∧ (r.vl_vibr_z).isSome ∧ (r.vl_gyro_x).isSome ∧
      (r.vl_gyro_y).isSome ∧ (r.vl_gyro_z).isSome) :
    transformFill l = l := by
  unfold transformFill
  apply map_eq_self_of
  intro r hr
  have e1 : fillCellMedian (tempVals l) r.vl_temperatura = r.vl_temperatura := by
    rcases ht with hnil | hall
    · rw [hnil, fillCellMedian_nil]
    · obtain ⟨x, hx⟩ := Option.isSome_iff_exists.mp (hall r hr)
      rw [hx, fillCellMedian_some]
  have e2 : fillCellMedian (presVals l) r.vl_pressao = r.vl_pressao := by
    rcases hp with hnil | hall
    · rw [hnil, fillCellMedian_nil]
    · obtain ⟨x, hx⟩ := Option.isSome_iff_exists.mp (hall r hr)
      rw [hx, fillCellMedian_some]
  have e3 : fillCellMedian (humVals l) r.vl_humidade = r.vl_humidade := by
    rcases hh with hnil | hall
    · rw [hnil, fillCellMedian_nil]
    · obtain ⟨x, hx⟩ := Option.isSome_iff_exists.mp (hall r hr)
      rw [hx, fillCellMedian_some]
  obtain ⟨hzv, hzx, hzy, hzz, hgx, hgy, hgz⟩ := hz r hr
  have ev : fillCellZero r.vl_vibracao = r.vl_vibracao := by
    obtain ⟨x, hx⟩ := Option.isSome_iff_exists.mp hzv
    rw [hx, fillCellZero_some]
  have ex : fillCellZero r.vl_vibr_x = r.vl_vibr_x := by
    obtain ⟨x, hx⟩ := Option.isSome_iff_exists.mp hzx
    rw [hx, fillCellZero_some]
  have ey : fillCellZero r.vl_vibr_y = r.vl_vibr_y := by
    obtain ⟨x, hx⟩ := Option.isSome_iff_exists.mp hzy
    rw [hx, fillCellZero_some]
  have ez : fillCellZero r.vl_vibr_z = r.vl_vibr_z := by
    obtain ⟨x, hx⟩ := Option.isSome_iff_exists.mp hzz
    rw [hx, fillCellZero_some]
  have egx : fillCellZero r.vl_gyro_x = r.vl_gyro_x := by
    obtain ⟨x, hx⟩ := Option.isSome_iff_exists.mp hgx
    rw [hx, fillCellZero_some]
  have egy : fillCellZero r.vl_gyro_y = r.vl_gyro_y := by
    obtain ⟨x, hx⟩ := Option.isSome_iff_exists.mp hgy
    rw [hx, fillCellZero_some]
  have egz : fillCellZero r.vl_gyro_z = r.vl_gyro_z := by
    obtain ⟨x, hx⟩ := Option.isSome_iff_exists.mp hgz
    rw [hx, fillCellZero_some]
  unfold fillRowWith
  rw [e1, e2, e3, ev, ex, ey, ez, egx, egy, egz]

/-- IQR clipping is the identity on a frame every one of whose
designated-column values is already fixed by the clamp against the
bounds computed from that same frame. -/
theorem transformClip_id (l : List Row)
    (ht : ∀ x ∈ tempVals l,
      clampQ (iqrBounds (tempVals l)).1 (iqrBounds (tempVals l)).2 x = x)
    (hp : ∀ x ∈ presVals l,
      clampQ (iqrBounds (presVals l)).1 (iqrBounds (presVals l)).2 x = x)
    (hv : ∀ x ∈ vibrVals l,
      clampQ (iqrBounds (vibrVals l)).1 (iqrBounds (vibrVals l)).2 x = x) :
    transformClip l = l := by
  unfold transformClip
  apply map_eq_self_of
  intro r hr
  have e1 : clipCellOf (tempVals l) r.vl_temperatura = r.vl_temperatura := by
    rcases hx : r.vl_temperatura with _ | x
    · exact clipCellOf_none _
    · have hmem : x ∈ tempVals l := List.mem_filterMap.mpr ⟨r, hr, hx⟩
      rw [clipCellOf_eq_map _ (List.ne_nil_of_mem hmem), Option.map_some',
        ht x hmem]
  have e2 : clipCellOf (presVals l) r.vl_pressao = r.vl_pressao := by
    rcases hx : r.vl_pressao with _ | x
    · exact clipCellOf_none _
    · have hmem : x ∈ presVals l := List.mem_filterMap.mpr ⟨r, hr, hx⟩
      rw [clipCellOf_eq_map _ (List.ne_nil_of_mem hmem), Option.map_some',
        hp x hmem]
  have e3 : clipCellOf (vibrVals l) r.vl_vibracao = r.vl_vibracao := by
    rcases hx : r.vl_vibracao with _ | x
    · exact clipCellOf_none _
    · have hmem : x ∈ vibrVals l := List.mem_filterMap.mpr ⟨r, hr, hx⟩
      rw [clipCellOf_eq_map _ (List.ne_nil_of_mem hmem), Option.map_some',
        hv x hmem]
  unfold clipRowWith
  rw [e1, e2, e3]

/-- to_datetime is the identity on a frame whose timestamps are
already converted. -/
theorem transformDatetime_id (l : List Row)
    (h : ∀ r ∈ l, ∃ t, r.datahora = .dt t) :
    transformDatetime l = l := by
  unfold transformDatetime
  apply map_eq_self_of
  intro r hr
  obtain ⟨t, ht⟩ := h r hr
  unfold dtRowFun
  rw [ht]
  rw [show toDatetimeVal (.dt t) = .dt t from rfl, ← ht]

/-- Re-deriving the magnitude on a transformed frame with its derived
columns dropped restores the magnitude column exactly. -/
theorem transformDerive_drop (l : List Row)
    (h : ∀ r ∈ l, r.vibracao_magnitude =
      magnitudeOf r.vl_vibr_x r.vl_vibr_y r.vl_vibr_z) :
    transformDerive (l.map dropDerived) = l.map dropStatusFun := by
  rw [transformDerive, List.map_map]
  apply List.map_congr_left
  intro r hr
  have hm := h r hr
  cases r
  simp only [Function.comp, deriveRowFun, dropDerived, dropStatusFun] at hm ⊢
  rw [← hm]

/-- Re-labelling the status on a transformed frame with its status
column dropped restores the frame exactly. -/
theorem transformStatus_restore (l : List Row)
    (h : ∀ r ∈ l, r.temp_status = r.vl_temperatura.map tempStatusOf) :
    transformStatus (l.map dropStatusFun) = l := by
  rw [transformStatus, List.map_map]
  apply map_eq_self_of
  intro r hr
  have hm := h r hr
  cases r
  simp only [Function.comp, statusRowFun, dropStatusFun] at hm ⊢
  rw [← hm]

/-- The transform sort output satisfies its own ordering predicate. -/
theorem transformSort_pairwise (l : List Row) :
    (transformSort l).Pairwise (rowLe · ·) :=
  List.sorted_mergeSort
    (fun a b c hab hbc => by
      simp only [rowLe, decide_eq_true_eq] at hab hbc ⊢
      exact le_trans hab hbc)
    (fun a b => by
      simp only [rowLe, Bool.or_eq_true, decide_eq_true_eq]
      exact le_total _ _) l

/-- Sorting an already sorted frame is the identity. -/
theorem transformSort_id (l : List Row) (h : l.Pairwise (rowLe · ·)) :
    transformSort l = l :=
  List.mergeSort_of_sorted h

/-- Claim C6: the Transform Stage is idempotent: running
clean_and_transform_data a second time on its own output, with the
first run's derived columns (VIBRACAO_MAGNITUDE, TEMP_STATUS) dropped
beforehand, reproduces the first run's output exactly — same derived
values and same frame.  The fills are no-ops (no nulls remain in a
filled column unless the whole column was null, in which case the
median fill is again a no-op), the IQR clip reproduces its own bounds
and fixes already-clipped values, the timestamp conversion and the
sort are idempotent, and the derived columns are recomputed from
unchanged inputs. -/
theorem c6_transform_idempotent (df : List Row) :
    clean_and_transform_data ((clean_and_transform_data df).map dropDerived) =
      clean_and_transform_data df := by
  rcases eq_or_ne df [] with rfl | hdf
  · rfl
  have hne : df.isEmpty = false := List.isEmpty_eq_false.mpr hdf
  have hclean : clean_and_transform_data df =
      transformSort (transformStatus (transformDerive (transformDatetime
        (transformClip (transformFill df))))) := by
    unfold clean_and_transform_data
    rw [hne]
    rfl
  set D := transformFill df with hD
  set T1 := transformSort (transformStatus (transformDerive
    (transformDatetime (transformClip D)))) with hT1
  set ys := T1.map dropDerived with hys
  have hchar : ∀ r ∈ ys, ∃ r0 ∈ D,
      r = dropDerived (statusRowFun (deriveRowFun (dtRowFun
        (clipRowWith (tempVals D) (presVals D) (vibrVals D) r0)))) := by
    intro r hr
    rw [hys, List.mem_map] at hr
    obtain ⟨r1, hr1, rfl⟩ := hr
    obtain ⟨r0, h0, rfl⟩ := mem_pipeline_char D r1 hr1
    exact ⟨r0, h0, rfl⟩
  have htempD := fill_col_cases df (fun r => r.vl_temperatura) (fun r => rfl)
  have hpresD := fill_col_cases df (fun r => r.vl_pressao) (fun r => rfl)
  have hhumD := fill_col_cases df (fun r => r.vl_humidade) (fun r => rfl)
  have htemp_ys : tempVals ys = [] ∨ ∀ r ∈ ys, (r.vl_temperatura).isSome := by
    rcases htempD with ⟨-, hallD⟩ | hsomeD
    · left
      apply List.filterMap_eq_nil_iff.mpr
      intro r hr
      obtain ⟨r0, h0, rfl⟩ := hchar r hr
      show clipCellOf (tempVals D) r0.vl_temperatura = none
      have hnone : r0.vl_temperatura = none := hallD r0 h0
      rw [hnone, clipCellOf_none]
    · right
      intro r hr
      obtain ⟨r0, h0, rfl⟩ := hchar r hr
      show (clipCellOf (tempVals D) r0.vl_temperatura).isSome = true
      rw [clipCellOf_isSome]
      exact hsomeD r0 h0
  have hpres_ys : presVals ys = [] ∨ ∀ r ∈ ys, (r.vl_pressao).isSome := by
    rcases hpresD with ⟨-, hallD⟩ | hsomeD
    · left
      apply List.filterMap_eq_nil_iff.mpr
      intro r hr
      obtain ⟨r0, h0, rfl⟩ := hchar r hr
      show clipCellOf (presVals D) r0.vl_pressao = none
      have hnone : r0.vl_pressao = none := hallD r0 h0
      rw [hnone, clipCellOf_none]
    · right
      intro r hr
      obtain ⟨r0, h0, rfl⟩ := hchar r hr
      show (clipCellOf (presVals D) r0.vl_pressao).isSome = true
      rw [clipCellOf_isSome]
      exact hsomeD r0 h0
  have hhum_ys : humVals ys = [] ∨ ∀ r ∈ ys, (r.vl_humidade).isSome := by
    rcases hhumD with ⟨-, hallD⟩ | hsomeD
    · left
      apply List.filterMap_eq_nil_iff.mpr
      intro r hr
      obtain ⟨r0, h0, rfl⟩ := hchar r hr
      show r0.vl_humidade = none
      exact hallD r0 h0
    · right
      intro r hr
      obtain ⟨r0, h0, rfl⟩ := hchar r hr
      show (r0.vl_humidade).isSome = true
      exact hsomeD r0 h0
  have hz_ys : ∀ r ∈ ys, (r.vl_vibracao).isSome ∧ (r.vl_vibr_x).isSome ∧
      (r.vl_vibr_y).isSome ∧ (r.vl_vibr_z).isSome ∧ (r.vl_gyro_x).isSome ∧
      (r.vl_gyro_y).isSome ∧ (r.vl_gyro_z).isSome := by
    intro r hr
    obtain ⟨r0, h0, rfl⟩ := hchar r hr
    refine ⟨?_, ?_, ?_, ?_, ?_, ?_, ?_⟩
    · show (clipCellOf (vibrVals D) r0.vl_vibracao).isSome = true
      rw [clipCellOf_isSome]
      exact fill_col_some df (fun r => r.vl_vibracao) (fun r => rfl) r0 h0
    · exact fill_col_some df (fun r => r.vl_vibr_x) (fun r => rfl) r0 h0
    · exact fill_col_some df (fun r => r.vl_vibr_y) (fun r => rfl) r0 h0
    · exact fill_col_some df (fun r => r.vl_vibr_z) (fun r => rfl) r0 h0
    · exact fill_col_some df (fun r => r.vl_gyro_x) (fun r => rfl) r0 h0
    · exact fill_col_some df (fun r => r.vl_gyro_y) (fun r => rfl) r0 h0
    · exact fill_col_some df (fun r => r.vl_gyro_z) (fun r => rfl) r0 h0
  have hperm_t : (tempVals ys).Perm ((tempVals D).map
      (clampQ (iqrBounds (tempVals D)).1 (iqrBounds (tempVals D)).2)) := by
    have h1 := vals_pipeline_perm (fun r => r.vl_temperatura)
      (fun r => rfl) (fun r => rfl) (fun r => rfl) (fun r => rfl)
      (transformClip D)
    rw [vals_clip_gen D (fun r => r.vl_temperatura) (fun r => rfl)] at h1
    exact h1
  have hperm_p : (presVals ys).Perm ((presVals D).map
      (clampQ (iqrBounds (presVals D)).1 (iqrBounds (presVals D)).2)) := by
    have h1 := vals_pipeline_perm (fun r => r.vl_pressao)
      (fun r => rfl) (fun r => rfl) (fun r => rfl) (fun r => rfl)
      (transformClip D)
    rw [vals_clip_gen D (fun r => r.vl_pressao) (fun r => rfl)] at h1
    exact h1
  have hperm_v : (vibrVals ys).Perm ((vibrVals D).map
      (clampQ (iqrBounds (vibrVals D)).1 (iqrBounds (vibrVals D)).2)) := by
    have h1 := vals_pipeline_perm (fun r => r.vl_vibracao)
      (fun r => rfl) (fun r => rfl) (fun r => rfl) (fun r => rfl)
      (transformClip D)
    rw [vals_clip_gen D (fun r => r.vl_vibracao) (fun r => rfl)] at h1
    exact h1
  have hfix_t := clamp_image_fixed (tempVals D) (tempVals ys) hperm_t
  have hfix_p := clamp_image_fixed (presVals D) (presVals ys) hperm_p
  have hfix_v := clamp_image_fixed (vibrVals D) (vibrVals ys) hperm_v
  have hdt_ys : ∀ r ∈ ys, ∃ t, r.datahora = .dt t := by
    intro r hr
    obtain ⟨r0, h0, rfl⟩ := hchar r hr
    show ∃ t, toDatetimeVal r0.datahora = .dt t
    cases r0.datahora <;> exact ⟨_, rfl⟩
  have hderiv : ∀ r ∈ T1, r.vibracao_magnitude =
      magnitudeOf r.vl_vibr_x r.vl_vibr_y r.vl_vibr_z ∧
      r.temp_status = r.vl_temperatura.map tempStatusOf := by
    intro r hr
    rw [hT1] at hr
    exact pipeline_derived_invariants D r hr
  have hysempty : ys.isEmpty = false := by
    apply List.isEmpty_eq_false.mpr
    intro hcon
    apply hdf
    have hlen : ys.length = df.length := by
      rw [hys, hT1, List.length_map]
      rw [show (transformSort (transformStatus (transformDerive
        (transformDatetime (transformClip D))))).length =
          (transformStatus (transformDerive (transformDatetime
            (transformClip D)))).length from
        (List.mergeSort_perm _ rowLe).length_eq]
      rw [transformStatus, transformDerive, transformDatetime,
        transformClip, hD, transformFill]
      simp
    rw [hcon] at hlen
    exact List.length_eq_zero.mp hlen.symm
  rw [hclean]
  show clean_and_transform_data ys = T1
  unfold clean_and_transform_data
  rw [hysempty]
  show transformSort (transformStatus (transformDerive (transformDatetime
    (transformClip (transformFill ys))))) = T1
  rw [transformFill_id ys htemp_ys hpres_ys hhum_ys hz_ys,
    transformClip_id ys hfix_t hfix_p hfix_v,
    transformDatetime_id ys hdt_ys]
  rw [hys, transformDerive_drop T1 (fun r hr => (hderiv r hr).1),
    transformStatus_restore T1 (fun r hr => (hderiv r hr).2)]
  rw [hT1]
  exact transformSort_id _ (transformSort_pairwise _)

end Hermes
